import Mathlib

/-!
Verification model of the `subject` package: a budget-metered state/event
engine (`core.py`) with a path "membrane", an incremental crystallizer with
content-addressed deduplication (`crystallizer.py`), a crystal selector
(`attention.py`), a validating reader (`reader.py`), a packet composer
(`composer.py`) and a markdown exporter (`exporter.py`).

Python dict-shaped events and file payloads are modelled by a JSON value
type; file contents are modelled structurally (a JSON value for `.json`
files, raw text for rendered exports).
-/

namespace SubjectModel

/-- JSON-like values: the shapes Python dicts/lists/scalars take in this
code base.  Objects are association lists in insertion order, as Python
dicts are. -/
inductive Json where
  | null : Json
  | bool : Bool → Json
  | int : Int → Json
  | str : String → Json
  | arr : List Json → Json
  | obj : List (String × Json) → Json

mutual

/-- Structural equality test for `Json`. -/
def Json.beq : Json → Json → Bool
  | .null, .null => true
  | .bool a, .bool b => a == b
  | .int a, .int b => a == b
  | .str a, .str b => a == b
  | .arr a, .arr b => Json.beqList a b
  | .obj a, .obj b => Json.beqFields a b
  | _, _ => false

/-- Elementwise equality of JSON arrays. -/
def Json.beqList : List Json → List Json → Bool
  | [], [] => true
  | x :: xs, y :: ys => Json.beq x y && Json.beqList xs ys
  | _, _ => false

/-- Elementwise equality of JSON object fields. -/
def Json.beqFields : List (String × Json) → List (String × Json) → Bool
  | [], [] => true
  | (k, v) :: xs, (l, w) :: ys => k == l && Json.beq v w && Json.beqFields xs ys
  | _, _ => false

end

mutual

def Json.beq_iff : ∀ a b : Json, Json.beq a b = true ↔ a = b
  | .null, .null => by simp [Json.beq]
  | .bool a, .bool b => by simp [Json.beq]
  | .int a, .int b => by simp [Json.beq]
  | .str a, .str b => by simp [Json.beq]
  | .arr a, .arr b => by
      simp only [Json.beq, Json.beqList_iff a b, Json.arr.injEq]
  | .obj a, .obj b => by
      simp only [Json.beq, Json.beqFields_iff a b, Json.obj.injEq]
  | .null, .bool _ | .null, .int _ | .null, .str _ | .null, .arr _ | .null, .obj _
  | .bool _, .null | .bool _, .int _ | .bool _, .str _ | .bool _, .arr _ | .bool _, .obj _
  | .int _, .null | .int _, .bool _ | .int _, .str _ | .int _, .arr _ | .int _, .obj _
  | .str _, .null | .str _, .bool _ | .str _, .int _ | .str _, .arr _ | .str _, .obj _
  | .arr _, .null | .arr _, .bool _ | .arr _, .int _ | .arr _, .str _ | .arr _, .obj _
  | .obj _, .null | .obj _, .bool _ | .obj _, .int _ | .obj _, .str _ | .obj _, .arr _ => by
      simp [Json.beq]

def Json.beqList_iff : ∀ a b : List Json, Json.beqList a b = true ↔ a = b
  | [], [] => by simp [Json.beqList]
  | x :: xs, y :: ys => by
      simp only [Json.beqList, Bool.and_eq_true, Json.beq_iff x y,
        Json.beqList_iff xs ys, List.cons.injEq]
  | [], _ :: _ => by simp [Json.beqList]
  | _ :: _, [] => by simp [Json.beqList]

def Json.beqFields_iff :
    ∀ a b : List (String × Json), Json.beqFields a b = true ↔ a = b
  | [], [] => by simp [Json.beqFields]
  | (k, v) :: xs, (l, w) :: ys => by
      simp only [Json.beqFields, Bool.and_eq_true, beq_iff_eq, Json.beq_iff v w,
        Json.beqFields_iff xs ys, List.cons.injEq, Prod.mk.injEq, and_assoc]
  | [], _ :: _ => by simp [Json.beqFields]
  | _ :: _, [] => by simp [Json.beqFields]

end

instance : DecidableEq Json := fun a b =>
  decidable_of_iff (Json.beq a b = true) (Json.beq_iff a b)

/-- Python `d.get(key)` on a dict: first binding of `key`, `None`-as-`none`
when absent or when the value is not a dict at all. -/
def jGet (j : Json) (key : String) : Option Json :=
  match j with
  | .obj fields => (fields.find? (fun f => f.1 == key)).map (·.2)
  | _ => none

/-- Python `d.get(key, default)`. -/
def jGetD (j : Json) (key : String) (dflt : Json) : Json :=
  (jGet j key).getD dflt

/-- Python `key in d` for a dict-shaped value. -/
def jHasKey (j : Json) (key : String) : Bool :=
  match j with
  | .obj fields => fields.any (fun f => f.1 == key)
  | _ => false

/-- Python `isinstance(x, dict)`. -/
def Json.isObj : Json → Bool
  | .obj _ => true
  | _ => false

/-- Python truthiness of a JSON-shaped value. -/
def jTruthy : Json → Bool
  | .null => false
  | .bool b => b
  | .int n => n != 0
  | .str s => !(s == "")
  | .arr xs => !xs.isEmpty
  | .obj fs => !fs.isEmpty

/-- Python `d[key] = v`: replaces the first binding in place, else appends
(insertion order of dicts). -/
def jSetField (fields : List (String × Json)) (key : String) (v : Json) :
    List (String × Json) :=
  if fields.any (fun f => f.1 == key) then
    fields.map (fun f => if f.1 == key then (key, v) else f)
  else fields ++ [(key, v)]

/-- Remove the named keys from an object (identity on non-objects):
used to state which fields of a crystal are excluded from its hash. -/
def jRemoveKeys (j : Json) (keys : List String) : Json :=
  match j with
  | .obj fields => .obj (fields.filter (fun f => !keys.contains f.1))
  | other => other

/-! ### Python primitives: int coercion, slicing, formatting, strip -/

/-- Digits-with-underscores body of a Python int literal: nonempty digits,
single underscores allowed between digits only. -/
def pyDigitsValue : List Char → Option Nat
  | [] => none
  | cs => go cs none
where
  go : List Char → Option Nat → Option Nat
    | [], acc => acc
    | '_' :: rest, some acc =>
        match rest with
        | c :: _ => if c.isDigit then go rest (some acc) else none
        | [] => none
    | c :: rest, acc =>
        if c.isDigit then go rest (some ((acc.getD 0) * 10 + (c.toNat - 48)))
        else none

/-- Python `int(s)` on a string: strip whitespace, optional sign, digit body. -/
def pyIntOfString (s : String) : Option Int :=
  let cs := s.data.dropWhile (fun c => c.isWhitespace)
  let cs := (cs.reverse.dropWhile (fun c => c.isWhitespace)).reverse
  match cs with
  | '+' :: rest => (pyDigitsValue rest).map (fun n => (n : Int))
  | '-' :: rest => (pyDigitsValue rest).map (fun n => -(n : Int))
  | rest => (pyDigitsValue rest).map (fun n => (n : Int))

/-- Python `int(x)` on a JSON-shaped value with `TypeError`/`ValueError`
caught: succeeds on ints, bools and integral strings. -/
def pyInt : Option Json → Option Int
  | some (.int n) => some n
  | some (.bool b) => some (if b then 1 else 0)
  | some (.str s) => pyIntOfString s
  | _ => none

/-- Python list slice `l[i:]` with negative-index semantics. -/
def pySliceFrom (l : List α) (i : Int) : List α :=
  if 0 ≤ i then l.drop i.toNat
  else l.drop ((l.length : Int) + i).toNat

/-- Python `f"{n:04d}"`: decimal, zero-padded to a total width of 4. -/
def format04d (n : Int) : String :=
  let digits := toString n.natAbs
  let signLen : Nat := if n < 0 then 1 else 0
  let pad := String.mk (List.replicate (4 - (digits.length + signLen)) '0')
  (if n < 0 then "-" else "") ++ pad ++ digits

/-- Python `s.strip(chars)`: drop leading and trailing characters in the set. -/
def pyStrip (chars : List Char) (s : String) : String :=
  let cs := s.data.dropWhile (fun c => chars.contains c)
  String.mk ((cs.reverse.dropWhile (fun c => chars.contains c)).reverse)

/-- Python `s.startswith(pre)`. -/
def pyStartsWith (s pre : String) : Bool :=
  pre.data.isPrefixOf s.data

/-- Python `s[n:]` on a string (character count). -/
def pyDropChars (s : String) (n : Nat) : String :=
  String.mk (s.data.drop n)

/-- One pass of `str.replace` for a nonempty pattern; the fuel bounds the
recursion and any fuel of at least the text length is enough. -/
def pyReplaceAux (pat repl : List Char) : Nat → List Char → List Char
  | _, [] => []
  | 0, cs => cs
  | fuel + 1, c :: cs =>
    if pat.isPrefixOf (c :: cs) then
      repl ++ pyReplaceAux pat repl fuel (cs.drop (pat.length - 1))
    else c :: pyReplaceAux pat repl fuel cs

/-- Python `s.replace(pat, repl)` (all occurrences; the empty pattern
inserts `repl` at every boundary). -/
def pyReplace (s pat repl : String) : String :=
  if pat = "" then
    String.mk (repl.data ++ (s.data.map (fun c => [c] ++ repl.data)).flatten)
  else String.mk (pyReplaceAux pat.data repl.data s.data.length s.data)

/-- Slash-joined concatenation (`"/".join`). -/
def joinSlash : List String → String
  | [] => ""
  | [x] => x
  | x :: xs => x ++ "/" ++ joinSlash xs

/-! ### Canonical JSON serialization (`json.dumps(x, sort_keys=True,
separators=(",", ":"), ensure_ascii=False)`) -/

/-- Lowercase hex digit. -/
def hexDigit (n : Nat) : Char :=
  if n < 10 then Char.ofNat (48 + n) else Char.ofNat (87 + n)

/-- Four lowercase hex digits (`\uXXXX` escapes). -/
def hex4 (n : Nat) : String :=
  String.mk [hexDigit (n / 4096 % 16), hexDigit (n / 256 % 16),
    hexDigit (n / 16 % 16), hexDigit (n % 16)]

/-- JSON escaping of one character as `json.dumps` does with
`ensure_ascii=False`: the short escapes, `\uXXXX` for other controls. -/
def jsonEscapeChar (c : Char) : String :=
  if c = '"' then "\\\""
  else if c = '\\' then "\\\\"
  else if c = '\n' then "\\n"
  else if c = '\t' then "\\t"
  else if c = '\r' then "\\r"
  else if c = '\x08' then "\\b"
  else if c = '\x0c' then "\\f"
  else if c.toNat < 32 then "\\u" ++ hex4 c.toNat
  else String.singleton c

/-- JSON string literal. -/
def jsonQuote (s : String) : String :=
  "\"" ++ (s.data.map jsonEscapeChar).foldl (· ++ ·) "" ++ "\""

/-- Lexicographic strict comparison of character lists by code point, as
Python compares strings. -/
def charListLtB : List Char → List Char → Bool
  | _, [] => false
  | [], _ :: _ => true
  | c :: cs, d :: ds =>
    if c.toNat < d.toNat then true
    else if d.toNat < c.toNat then false
    else charListLtB cs ds

/-- Python string `<`. -/
def strLtB (a b : String) : Bool := charListLtB a.data b.data

/-- Insert one field into a key-sorted field list. -/
def insertField (p : String × Json) : List (String × Json) → List (String × Json)
  | [] => [p]
  | q :: qs => if strLtB q.1 p.1 then q :: insertField p qs else p :: q :: qs

/-- Sort object fields by key, as `sort_keys=True` does. -/
def sortFields : List (String × Json) → List (String × Json)
  | [] => []
  | p :: ps => insertField p (sortFields ps)

mutual

/-- Recursively sort every object's fields by key. -/
def Json.sortKeysDeep : Json → Json
  | .obj fs => .obj (sortFields (Json.sortKeysDeepFields fs))
  | .arr xs => .arr (Json.sortKeysDeepList xs)
  | j => j

/-- Map `sortKeysDeep` over an array. -/
def Json.sortKeysDeepList : List Json → List Json
  | [] => []
  | x :: xs => Json.sortKeysDeep x :: Json.sortKeysDeepList xs

/-- Map `sortKeysDeep` over object field values. -/
def Json.sortKeysDeepFields : List (String × Json) → List (String × Json)
  | [] => []
  | (k, v) :: fs => (k, Json.sortKeysDeep v) :: Json.sortKeysDeepFields fs

end

mutual

/-- Serialize a JSON value in field order, with `(",", ":")` separators. -/
def Json.render : Json → String
  | .null => "null"
  | .bool true => "true"
  | .bool false => "false"
  | .int n => toString n
  | .str s => jsonQuote s
  | .arr xs => "[" ++ Json.renderList xs ++ "]"
  | .obj fs => "\x7b" ++ Json.renderFields fs ++ "\x7d"

/-- Comma-joined array elements. -/
def Json.renderList : List Json → String
  | [] => ""
  | [x] => Json.render x
  | x :: xs => Json.render x ++ "," ++ Json.renderList xs

/-- Comma-joined `"key":value` pairs. -/
def Json.renderFields : List (String × Json) → String
  | [] => ""
  | [(k, v)] => jsonQuote k ++ ":" ++ Json.render v
  | (k, v) :: fs => jsonQuote k ++ ":" ++ Json.render v ++ "," ++ Json.renderFields fs

end

/-- `_stable_json(value)`: canonical serialization — keys sorted at every
level, compact separators, `ensure_ascii=False`. -/
def stable_json (j : Json) : String :=
  Json.render j.sortKeysDeep

/-! ### SHA-256 (`hashlib.sha256(...).hexdigest()`), on `Nat` words mod 2^32 -/

/-- Truncate to a 32-bit word. -/
def w32 (n : Nat) : Nat := n % 4294967296

/-- Right rotation of a 32-bit word. -/
def rotr32 (n x : Nat) : Nat := w32 ((x >>> n) ||| (x <<< (32 - n)))

/-- UTF-8 encoding of one character (`str.encode("utf-8")`). -/
def utf8Char (c : Char) : List Nat :=
  let n := c.toNat
  if n < 128 then [n]
  else if n < 2048 then [192 ||| (n >>> 6), 128 ||| (n &&& 63)]
  else if n < 65536 then
    [224 ||| (n >>> 12), 128 ||| ((n >>> 6) &&& 63), 128 ||| (n &&& 63)]
  else
    [240 ||| (n >>> 18), 128 ||| ((n >>> 12) &&& 63),
     128 ||| ((n >>> 6) &&& 63), 128 ||| (n &&& 63)]

/-- UTF-8 bytes of a string. -/
def utf8Bytes (s : String) : List Nat :=
  (s.data.map utf8Char).flatten

/-- Big-endian byte expansion of a value, to a fixed byte count. -/
def beBytes (count : Nat) (n : Nat) : List Nat :=
  (List.range count).map (fun i => (n >>> (8 * (count - 1 - i))) % 256)

/-- SHA-256 message padding: `0x80`, zeros to 56 mod 64, 64-bit bit length. -/
def sha256Pad (msg : List Nat) : List Nat :=
  let L := msg.length
  let zeros := (120 - (L + 1) % 64) % 64
  msg ++ [128] ++ List.replicate zeros 0 ++ beBytes 8 (L * 8)

/-- Pack bytes into big-endian 32-bit words. -/
def bytesToWords : List Nat → List Nat
  | a :: b :: c :: d :: rest => (((a * 256 + b) * 256 + c) * 256 + d) :: bytesToWords rest
  | _ => []

/-- Split a word list into 16-word blocks. -/
def chunk16 : List Nat → List (List Nat)
  | w0 :: w1 :: w2 :: w3 :: w4 :: w5 :: w6 :: w7 ::
    w8 :: w9 :: w10 :: w11 :: w12 :: w13 :: w14 :: w15 :: rest =>
      [w0, w1, w2, w3, w4, w5, w6, w7, w8, w9, w10, w11, w12, w13, w14, w15]
        :: chunk16 rest
  | _ => []

/-- SHA-256 round constants. -/
def shaK : List Nat :=
  [1116352408, 1899447441, 3049323471, 3921009573, 961987163,
   1508970993, 2453635748, 2870763221, 3624381080, 310598401,
   607225278, 1426881987, 1925078388, 2162078206, 2614888103,
   3248222580, 3835390401, 4022224774, 264347078, 604807628,
   770255983, 1249150122, 1555081692, 1996064986, 2554220882,
   2821834349, 2952996808, 3210313671, 3336571891, 3584528711,
   113926993, 338241895, 666307205, 773529912, 1294757372,
   1396182291, 1695183700, 1986661051, 2177026350, 2456956037,
   2730485921, 2820302411, 3259730800, 3345764771, 3516065817,
   3600352804, 4094571909, 275423344, 430227734, 506948616,
   659060556, 883997877, 958139571, 1322822218, 1537002063,
   1747873779, 1955562222, 2024104815, 2227730452, 2361852424,
   2428436474, 2756734187, 3204031479, 3329325298]

/-- SHA-256 initial hash state. -/
def shaH0 : List Nat :=
  [1779033703, 3144134277, 1013904242, 2773480762,
   1359893119, 2600822924, 528734635, 1541459225]

/-- Schedule sigma-0. -/
def sSig0 (x : Nat) : Nat := rotr32 7 x ^^^ rotr32 18 x ^^^ (x >>> 3)

/-- Schedule sigma-1. -/
def sSig1 (x : Nat) : Nat := rotr32 17 x ^^^ rotr32 19 x ^^^ (x >>> 10)

/-- Compression Sigma-0. -/
def bSig0 (x : Nat) : Nat := rotr32 2 x ^^^ rotr32 13 x ^^^ rotr32 22 x

/-- Compression Sigma-1. -/
def bSig1 (x : Nat) : Nat := rotr32 6 x ^^^ rotr32 11 x ^^^ rotr32 25 x

/-- Choose function (bitwise complement within 32 bits). -/
def shaCh (x y z : Nat) : Nat := (x &&& y) ^^^ ((x ^^^ 4294967295) &&& z)

/-- Majority function. -/
def shaMaj (x y z : Nat) : Nat := (x &&& y) ^^^ (x &&& z) ^^^ (y &&& z)

/-- Extend a 16-word block by one schedule word. -/
def scheduleStep (ws : List Nat) : List Nat :=
  let i := ws.length
  ws ++ [w32 (sSig1 (ws.getD (i - 2) 0) + ws.getD (i - 7) 0 +
    sSig0 (ws.getD (i - 15) 0) + ws.getD (i - 16) 0)]

/-- The 64-word message schedule of a block. -/
def schedule (block : List Nat) : List Nat :=
  (List.range 48).foldl (fun acc _ => scheduleStep acc) block

/-- One compression round on the 8-word working state. -/
def compressWord (st : List Nat) (kw : Nat × Nat) : List Nat :=
  match st with
  | [a, b, c, d, e, f, g, h] =>
    let t1 := w32 (h + bSig1 e + shaCh e f g + kw.1 + kw.2)
    let t2 := w32 (bSig0 a + shaMaj a b c)
    [w32 (t1 + t2), a, b, c, w32 (d + t1), e, f, g]
  | other => other

/-- Process one 16-word block into the running hash state. -/
def processBlock (h : List Nat) (block : List Nat) : List Nat :=
  let st := (shaK.zip (schedule block)).foldl compressWord h
  (h.zip st).map (fun p => w32 (p.1 + p.2))

/-- SHA-256 digest bytes of a byte message. -/
def sha256Digest (msg : List Nat) : List Nat :=
  let hFinal := (chunk16 (bytesToWords (sha256Pad msg))).foldl processBlock shaH0
  (hFinal.map (beBytes 4)).flatten

/-- Two lowercase hex digits of a byte. -/
def hexByte (n : Nat) : String :=
  String.mk [hexDigit (n / 16 % 16), hexDigit (n % 16)]

/-- `hashlib.sha256(s.encode("utf-8")).hexdigest()`. -/
def sha256HexOfString (s : String) : String :=
  ((sha256Digest (utf8Bytes s)).map hexByte).foldl (· ++ ·) ""

/-! ### Path parsing (`PurePosixPath` / `PureWindowsPath`) and the membrane -/

/-- Split a character list on a separator character. -/
def splitOnChar (sep : Char) (cs : List Char) : List (List Char) :=
  match cs with
  | [] => [[]]
  | c :: rest =>
    let tail := splitOnChar sep rest
    if c = sep then [] :: tail
    else
      match tail with
      | seg :: segs => (c :: seg) :: segs
      | [] => [[c]]

/-- `".." in PurePosixPath(s).parts`: some `/`-separated segment is `..`
(pathlib drops only empty and `.` segments, which are never `..`). -/
def posixHasParentRef (s : String) : Bool :=
  (splitOnChar '/' s.data).any (fun seg => seg = ['.', '.'])

/-- `PurePosixPath(s).is_absolute()`. -/
def posixIsAbsolute (s : String) : Bool :=
  pyStartsWith s "/"

/-- Windows path normalization: `/` becomes `\`. -/
def winNormalize (s : String) : List Char :=
  s.data.map (fun c => if c = '/' then '\\' else c)

/-- Uppercased character, for the `\\?\UNC\` prefix comparison. -/
def upperChar (c : Char) : Char :=
  if 'a' ≤ c ∧ c ≤ 'z' then Char.ofNat (c.toNat - 32) else c

/-- Position of the first separator at or after `start`. -/
def findSep (cs : List Char) (start : Nat) : Option Nat :=
  match (cs.drop start).findIdx? (fun c => c = '\\') with
  | some i => some (start + i)
  | none => none

/-- `ntpath.splitroot` on a `\`-normalized path: `(drive, root, rest)`. -/
def winSplitRoot (p : List Char) : List Char × List Char × List Char :=
  match p with
  | '\\' :: '\\' :: _ =>
    let start := if (p.take 8).map upperChar = "\\\\?\\UNC\\".data then 8 else 2
    match findSep p start with
    | none => (p, [], [])
    | some idx =>
      match findSep p (idx + 1) with
      | none => (p, [], [])
      | some idx2 => (p.take idx2, ['\\'], p.drop (idx2 + 1))
  | '\\' :: rest => ([], ['\\'], rest)
  | a :: ':' :: '\\' :: rest => ([a, ':'], ['\\'], rest)
  | a :: ':' :: rest => ([a, ':'], [], rest)
  | _ => ([], [], p)

/-- `PureWindowsPath(s).drive`. -/
def winDrive (s : String) : List Char := (winSplitRoot (winNormalize s)).1

/-- `PureWindowsPath(s).root`. -/
def winRoot (s : String) : List Char := (winSplitRoot (winNormalize s)).2.1

/-- `".." in PureWindowsPath(s).parts`: the drive/root part can never be
`..`, so this is a `..` segment of the post-root rest. -/
def winHasParentRef (s : String) : Bool :=
  (splitOnChar '\\' (winSplitRoot (winNormalize s)).2.2).any
    (fun seg => seg = ['.', '.'])

/-- `PureWindowsPath(s).is_absolute()`: both a drive and a root. -/
def winIsAbsolute (s : String) : Bool :=
  !(winDrive s).isEmpty && !(winRoot s).isEmpty

/-- The membrane test of `Subject.write_artifact`: absolute under either
flavour, or a Windows drive/root marker, or a `..` segment under either
flavour. -/
def membraneRejects (relPath : String) : Bool :=
  let hasParentRef := posixHasParentRef relPath || winHasParentRef relPath
  let isAbsolute := posixIsAbsolute relPath || winIsAbsolute relPath
  let hasDriveOrRoot := !(winDrive relPath).isEmpty || !(winRoot relPath).isEmpty
  isAbsolute || hasDriveOrRoot || hasParentRef

/-- `_normalize_rel_path` of `reader.py` (and, identically, `exporter.py`):
backslashes to slashes, strip slashes, then reject empty, absolute,
drive/root-marked or parent-referencing paths. -/
def reader_normalize_rel_path (relPath : String) : Option String :=
  let relPosix := pyStrip ['/'] (pyReplace relPath "\\" "/")
  if relPosix = "" || membraneRejects relPosix then none
  else some relPosix

/-- `_normalize_rel_path` of `attention.py`: additionally strips a leading
`workspace_dir` component before validating. -/
def attention_normalize_rel_path (relPath : String) (workspaceDir : Option String) :
    Option String :=
  let relPosix := pyStrip ['/'] (pyReplace relPath "\\" "/")
  let relPosix :=
    match workspaceDir with
    | some ws =>
      if ws = "" then relPosix
      else
        let wsPosix := pyStrip ['/'] (pyReplace ws "\\" "/")
        if !(wsPosix == "") && pyStartsWith relPosix (wsPosix ++ "/") then
          pyDropChars relPosix (wsPosix.length + 1)
        else if !(wsPosix == "") && relPosix = wsPosix then ""
        else relPosix
    | none => relPosix
  if relPosix = "" || membraneRejects relPosix then none
  else some relPosix

/-- `PurePosixPath(s).name`: last surviving segment (empty and `.` segments
dropped). -/
def posixName (s : String) : String :=
  match ((splitOnChar '/' s.data).filter
      (fun seg => seg ≠ [] ∧ seg ≠ ['.'])).getLast? with
  | some seg => String.mk seg
  | none => ""

/-- `PurePosixPath(s).stem`: the name up to its last dot, when that dot is
neither leading nor trailing. -/
def posixStem (s : String) : String :=
  let name := posixName s
  match (name.data.reverse.findIdx? (fun c => c = '.')) with
  | some ri =>
    let i := name.length - 1 - ri
    if 0 < i ∧ i < name.length - 1 then String.mk (name.data.take i) else name
  | none => name

/-! ### Core engine (`core.py`): state, step, membrane writes, rollback -/

/-- Workspace file contents: `.json` files are held structurally (their
on-disk text is the canonical serialization the writers produce), rendered
markdown exports are raw text. -/
inductive FileData where
  | jsonFile : Json → FileData
  | textFile : String → FileData
deriving DecidableEq

/-- The byte source written for a file. -/
def FileData.text : FileData → String
  | .jsonFile j => stable_json j
  | .textFile s => s

/-- Write (create or overwrite) a workspace-relative file: the most recent
write shadows earlier ones for `fsRead`. -/
def fsWrite (fs : List (String × FileData)) (path : String) (d : FileData) :
    List (String × FileData) :=
  (path, d) :: fs

/-- Read a workspace-relative file, `none` when absent. -/
def fsRead (fs : List (String × FileData)) (path : String) : Option FileData :=
  (fs.find? (fun f => f.1 == path)).map (·.2)

/-- `SubjectState`: value, append-only history of events, budget. -/
structure SubjectState where
  value : Int
  history : List Json
  budget : Int
deriving DecidableEq

/-- A `Subject` together with its workspace filesystem. -/
structure World where
  state : SubjectState
  workspace_dir : String
  fs : List (String × FileData)
deriving DecidableEq

/-- `STEP_COST` of `core.py`. -/
def STEP_COST : Int := 1

/-- `Subject.step(input_value)`. -/
def step (w : World) (inputValue : Int) : World :=
  if w.state.budget < STEP_COST then
    let event : Json := .obj [("type", .str "DENY"), ("reason", .str "NO_BUDGET"),
      ("input", .int inputValue), ("budget", .int w.state.budget)]
    { w with state := { value := w.state.value,
                        history := w.state.history ++ [event],
                        budget := w.state.budget } }
  else
    let newValue := w.state.value + inputValue
    let newBudget := w.state.budget - STEP_COST
    let event : Json := .obj [("type", .str "STEP"), ("input", .int inputValue),
      ("result", .int newValue), ("cost", .int STEP_COST),
      ("budget_after", .int newBudget)]
    { w with state := { value := newValue,
                        history := w.state.history ++ [event],
                        budget := newBudget } }

/-- A sequence of `step` calls in order. -/
def stepMany (w : World) (inputs : List Int) : World :=
  inputs.foldl step w

/-- `Subject.write_artifact(rel_path, content)`: membrane-checked write. -/
def write_artifact (w : World) (relPath : String) (content : FileData) : World :=
  if membraneRejects relPath then
    let event : Json := .obj [("type", .str "DENY"),
      ("reason", .str "MEMBRANE_VIOLATION"), ("path", .str relPath)]
    { w with state := { value := w.state.value,
                        history := w.state.history ++ [event],
                        budget := w.state.budget } }
  else
    let data := content.text
    let event : Json := .obj [("type", .str "ARTIFACT_WRITE"),
      ("path", .str relPath), ("bytes", .int data.utf8ByteSize)]
    { state := { value := w.state.value,
                 history := w.state.history ++ [event],
                 budget := w.state.budget },
      workspace_dir := w.workspace_dir,
      fs := fsWrite w.fs relPath content }

/-- `Subject.snapshot()`: a pure copy of the current state. -/
def snapshot (w : World) : SubjectState := w.state

/-- `Subject.rollback(snapshot_state)`. -/
def rollback (w : World) (snap : SubjectState) : World :=
  let event : Json := .obj [("type", .str "ROLLBACK"),
    ("to_value", .int snap.value), ("to_budget", .int snap.budget)]
  { w with state := { value := snap.value,
                      history := snap.history ++ [event],
                      budget := snap.budget } }

/-- `_set_subject_state(subject, history, budget)` (shared by the
crystallizer, selector, reader, composer and exporter). -/
def set_subject_state (w : World) (history : List Json) (budget : Int) : World :=
  { w with state := { value := w.state.value, history := history, budget := budget } }

/-- Python `history and history[-1].get("type") == t`. -/
def lastEventTypeIs (history : List Json) (t : String) : Bool :=
  match history.getLast? with
  | some e => jGet e "type" == some (.str t)
  | none => false

/-! ### Crystallizer (`crystallizer.py`) -/

namespace Crystallizer

/-- `CRYSTAL_COST`. -/
def CRYSTAL_COST : Int := 1

/-- `INDEX_VERSION` of `crystallizer.py`. -/
def INDEX_VERSION : String := "0.2"

/-- `_signature_for_crystal(crystal)`. -/
def signature_for_crystal (crystal : Json) : String :=
  sha256HexOfString (stable_json crystal)

/-- `_last_crystal_write_index(history)`: `last_event_index` of the most
recent CRYSTAL_WRITE event, `-1` when absent or unparseable. -/
def last_crystal_write_index (history : List Json) : Int :=
  match history.reverse.find? (fun e => jGet e "type" == some (.str "CRYSTAL_WRITE")) with
  | some e => (pyInt (some (jGetD e "last_event_index" (.int (-1))))).getD (-1)
  | none => -1

/-- `_clean_rel_dir(rel_dir, workspace_dir)`. -/
def clean_rel_dir (relDir : String) (workspaceDir : Option String) : String :=
  let relDirPosix := pyStrip ['/'] (pyReplace relDir "\\" "/")
  match workspaceDir with
  | none => relDirPosix
  | some ws =>
    if ws = "" then relDirPosix
    else
      let wsPosix := pyStrip ['/'] (pyReplace ws "\\" "/")
      let relDirPosix :=
        if !(wsPosix == "") && pyStartsWith relDirPosix (wsPosix ++ "/") then
          pyDropChars relDirPosix (wsPosix.length + 1)
        else if !(wsPosix == "") && relDirPosix = wsPosix then ""
        else relDirPosix
      pyStrip ['/'] relDirPosix

/-- `_join_rel(*parts)`. -/
def join_rel (parts : List String) : String :=
  joinSlash ((parts.map (pyStrip ['/', '\\'])).filter (fun p => !(p == "")))

/-- The tolerant crystal-index payload: `next_index`, `last_event_index`,
dict-shaped entries. -/
structure CrystalIndex where
  next_index : Int
  last_event_index : Int
  crystals : List Json
deriving DecidableEq

/-- `_default_index_payload()`. -/
def default_index_payload : CrystalIndex :=
  { next_index := 0, last_event_index := -1, crystals := [] }

/-- `_load_index_payload(index_path)`: missing file, unparseable content or
a non-dict top level fall back to the default; non-dict entries dropped.
(A raw-text file at this path stands for unparseable content.) -/
def load_index_payload (fs : List (String × FileData)) (path : String) :
    CrystalIndex :=
  match fsRead fs path with
  | none => default_index_payload
  | some (.textFile _) => default_index_payload
  | some (.jsonFile data) =>
    match data with
    | .obj _ =>
      { next_index := (pyInt (jGet data "next_index")).getD 0,
        last_event_index := (pyInt (jGet data "last_event_index")).getD (-1),
        crystals :=
          match jGet data "crystals" with
          | some (.arr entries) => entries.filter (fun e => e.isObj)
          | _ => [] }
    | _ => default_index_payload

/-- The `known_signatures` set of `crystallize`: truthy `signature` values
of the indexed entries. -/
def known_signatures (crystals : List Json) : List Json :=
  crystals.filterMap (fun e =>
    match jGet e "signature" with
    | some v => if jTruthy v then some v else none
    | none => none)

/-- `crystallize(state, rel_dir, min_new_events)`.  The two `_timestamp()`
calls are passed in as `ts1` (crystal `created_at`) and `ts2` (index entry
`created_at`). -/
def crystallize (w : World) (relDir : String) (minNewEvents : Int)
    (ts1 ts2 : String) : World × Option String :=
  let history := w.state.history
  let budget := w.state.budget
  let lastEventIndex := last_crystal_write_index history
  if budget < CRYSTAL_COST then
    let event : Json := .obj [("type", .str "CRYSTAL_SKIP"),
      ("reason", .str "NO_BUDGET"), ("last_event_index", .int lastEventIndex)]
    (set_subject_state w (history ++ [event]) budget, none)
  else
  let fromIndex := lastEventIndex + 1
  let newEvents := pySliceFrom history fromIndex
  if (newEvents.length : Int) < minNewEvents then
    let event : Json := .obj [("type", .str "CRYSTAL_SKIP"),
      ("reason", .str "NOT_ENOUGH_NEW_EVENTS"),
      ("event_count", .int newEvents.length),
      ("min_new_events", .int minNewEvents),
      ("last_event_index", .int lastEventIndex)]
    (set_subject_state w (history ++ [event]) (budget - CRYSTAL_COST), none)
  else
  let bodyFields : List (String × Json) :=
    [("version", .str INDEX_VERSION), ("kind", .str "event_digest"),
     ("payload", .obj [("events", .arr newEvents), ("from_index", .int fromIndex),
       ("to_index", .int (fromIndex + newEvents.length - 1)),
       ("event_count", .int newEvents.length)])]
  let crystalBody : Json := .obj bodyFields
  let signature := signature_for_crystal crystalBody
  let relDirClean := clean_rel_dir relDir (some w.workspace_dir)
  let indexRelPath := join_rel [relDirClean, "index.json"]
  let indexPayload := load_index_payload w.fs indexRelPath
  let crystals := indexPayload.crystals
  let knownSignatures := known_signatures crystals
  if knownSignatures.contains (Json.str signature) then
    let event : Json := .obj [("type", .str "CRYSTAL_SKIP"),
      ("reason", .str "DUPLICATE"), ("signature", .str signature),
      ("last_event_index", .int lastEventIndex)]
    (set_subject_state w (history ++ [event]) (budget - CRYSTAL_COST), none)
  else
  let nextIndex := indexPayload.next_index
  let toIndex := fromIndex + newEvents.length - 1
  let crystalName := "crystal_" ++ format04d nextIndex ++ ".json"
  let crystalRelPath := join_rel [relDirClean, crystalName]
  let crystalPayload : Json :=
    .obj (bodyFields ++ [("signature", .str signature), ("created_at", .str ts1)])
  let w1 := write_artifact w crystalRelPath (.jsonFile crystalPayload)
  let historyAfterWrite := w1.state.history
  if lastEventTypeIs historyAfterWrite "DENY" then
    let event : Json := .obj [("type", .str "CRYSTAL_SKIP"),
      ("reason", .str "OTHER"), ("detail", .str "MEMBRANE_VIOLATION"),
      ("signature", .str signature), ("path", .str crystalRelPath),
      ("last_event_index", .int lastEventIndex)]
    (set_subject_state w1 (historyAfterWrite ++ [event]) (budget - CRYSTAL_COST), none)
  else
  let entry : Json := .obj [("index", .int nextIndex), ("path", .str crystalRelPath),
    ("signature", .str signature), ("kind", .str "event_digest"),
    ("from_index", .int fromIndex), ("to_index", .int toIndex),
    ("event_count", .int newEvents.length), ("created_at", .str ts2)]
  let indexJson : Json := .obj [("version", .str INDEX_VERSION),
    ("next_index", .int (nextIndex + 1)), ("last_event_index", .int toIndex),
    ("crystals", .arr (crystals ++ [entry]))]
  let w2 := write_artifact w1 indexRelPath (.jsonFile indexJson)
  let historyAfterIndex := w2.state.history
  if lastEventTypeIs historyAfterIndex "DENY" then
    let event : Json := .obj [("type", .str "CRYSTAL_SKIP"),
      ("reason", .str "OTHER"), ("detail", .str "MEMBRANE_VIOLATION"),
      ("signature", .str signature), ("path", .str indexRelPath),
      ("last_event_index", .int lastEventIndex)]
    (set_subject_state w2 (historyAfterIndex ++ [event]) (budget - CRYSTAL_COST), none)
  else
  let event : Json := .obj [("type", .str "CRYSTAL_WRITE"), ("index", .int nextIndex),
    ("path", .str crystalRelPath), ("signature", .str signature),
    ("event_count", .int newEvents.length), ("from_index", .int fromIndex),
    ("last_event_index", .int toIndex)]
  (set_subject_state w2 (historyAfterIndex ++ [event]) (budget - CRYSTAL_COST),
    some crystalRelPath)

end Crystallizer

/-! ### Reader (`reader.py`) -/

namespace Reader

/-- `CrystalReadError(reason, detail)`. -/
structure CrystalReadError where
  reason : String
  detail : Option String
deriving DecidableEq

/-- Truthiness of the optional expected signature (`and expected_signature`). -/
def sigTruthy : Option String → Bool
  | some s => !(s == "")
  | none => false

/-- `_resolve_full_path(workspace_dir, rel_path)`: try the literal path,
then the `storage/` fallback for `crystals/` paths, else the literal
candidate (whose nonexistence the caller reports). -/
def resolve_full_path (fs : List (String × FileData)) (relPath : String) : String :=
  if (fsRead fs relPath).isSome then relPath
  else if pyStartsWith relPath "crystals/" && (fsRead fs ("storage/" ++ relPath)).isSome then
    "storage/" ++ relPath
  else relPath

/-- `read_crystal(workspace_dir, rel_path, expected_signature)`: pure
validating loader.  (A raw-text file stands for unparseable JSON.) -/
def read_crystal (fs : List (String × FileData)) (relPath : String)
    (expectedSignature : Option String) : Except CrystalReadError Json :=
  match reader_normalize_rel_path relPath with
  | none => .error ⟨"VIOLATION", none⟩
  | some relClean =>
    let fullPath := resolve_full_path fs relClean
    match fsRead fs fullPath with
    | none => .error ⟨"NOT_FOUND", none⟩
    | some (.textFile _) => .error ⟨"INVALID", none⟩
    | some (.jsonFile data) =>
      match data with
      | .obj fields =>
        if jHasKey data "version" && jHasKey data "kind" && jHasKey data "payload" then
          if !(jGetD data "payload" .null).isObj then .error ⟨"INVALID", none⟩
          else if !(jHasKey data "signature") && sigTruthy expectedSignature then
            .ok (.obj (jSetField fields "signature"
              (.str (expectedSignature.getD ""))))
          else .ok data
        else if jHasKey data "signature" && jHasKey data "events" then
          .ok (.obj [("version", .str "legacy"), ("kind", .str "event_digest"),
            ("payload", data), ("signature", jGetD data "signature" .null)])
        else if jHasKey data "events" && sigTruthy expectedSignature then
          .ok (.obj [("version", .str "legacy"), ("kind", .str "event_digest"),
            ("payload", data), ("signature", .str (expectedSignature.getD ""))])
        else .error ⟨"INVALID", none⟩
      | _ => .error ⟨"INVALID", none⟩

/-- `read_selected_crystal(state, selection_path, expected_signature)`. -/
def read_selected_crystal (w : World) (selectionPath : Option String)
    (expectedSignature : Option String) : World × Option Json :=
  let history := w.state.history
  let pathFalsy := match selectionPath with | none => true | some s => s == ""
  if pathFalsy then
    let event : Json := .obj [("type", .str "CRYSTAL_READ_DENY"),
      ("reason", .str "NOT_FOUND"), ("detail", .str "NO_SELECTION")]
    (set_subject_state w (history ++ [event]) w.state.budget, none)
  else
    let p := selectionPath.getD ""
    match read_crystal w.fs p expectedSignature with
    | .error exc =>
      let baseFields : List (String × Json) := [("type", .str "CRYSTAL_READ_DENY"),
        ("reason", .str exc.reason), ("path", .str p)]
      let event : Json := .obj (match exc.detail with
        | some d => if d = "" then baseFields else baseFields ++ [("detail", .str d)]
        | none => baseFields)
      (set_subject_state w (history ++ [event]) w.state.budget, none)
    | .ok payload =>
      let event : Json := .obj [("type", .str "CRYSTAL_READ"), ("path", .str p),
        ("kind", jGetD payload "kind" .null),
        ("signature", jGetD payload "signature" .null)]
      (set_subject_state w (history ++ [event]) w.state.budget, some payload)

end Reader

/-! ### Selector (`attention.py`) -/

namespace Attention

/-- `_load_index_payload(index_path)` of `attention.py`: a dict payload or
`\x7b\x7d`. -/
def load_index_payload (fs : List (String × FileData)) (path : String) : Json :=
  match fsRead fs path with
  | none => .obj []
  | some (.textFile _) => .obj []
  | some (.jsonFile data) => if data.isObj then data else .obj []

/-- The scanning loop of `_select_latest`: best dict entry with a greater
parseable integer `index` so far. -/
def select_latest_loop (entries : List Json) (best : Option (Json × Int)) :
    Option (Json × Int) :=
  match entries with
  | [] => best
  | e :: rest =>
    if !e.isObj then select_latest_loop rest best
    else
      match pyInt (jGet e "index") with
      | none => select_latest_loop rest best
      | some v =>
        match best with
        | none => select_latest_loop rest (some (e, v))
        | some (_, bv) =>
          if bv < v then select_latest_loop rest (some (e, v))
          else select_latest_loop rest best

/-- `_select_latest(crystals)`: max parseable integer `index`, else the
last dict-shaped entry. -/
def select_latest (crystals : List Json) : Option Json :=
  match select_latest_loop crystals none with
  | some (e, _) => some e
  | none => (crystals.filter (fun e => e.isObj)).getLast?

/-- `_load_crystal_signature(subject, rel_path, expected_signature)`. -/
def load_crystal_signature (fs : List (String × FileData)) (relPath : Option Json)
    (expectedSignature : Option String) : Option String :=
  match relPath with
  | some (.str p) =>
    match Reader.read_crystal fs p expectedSignature with
    | .error _ => none
    | .ok payload =>
      match jGet payload "signature" with
      | some (.str s) => some s
      | _ => none
  | _ => none

/-- The `expected_signature` passed to the reader for an index entry: its
`signature` value when that is a string. -/
def entry_expected_signature (entry : Json) : Option String :=
  match jGetD entry "signature" .null with
  | .str s => some s
  | _ => none

/-- The signature recorded in a CRYSTAL_SELECT event for a picked entry:
the file-derived signature when one is loadable (and truthy), else the
index-recorded value. -/
def selected_signature (fs : List (String × FileData)) (entry : Json) : Json :=
  let entrySigVal := jGetD entry "signature" .null
  match load_crystal_signature fs (jGet entry "path")
      (entry_expected_signature entry) with
  | some s => if s = "" then entrySigVal else .str s
  | none => entrySigVal

/-- `select_crystal(state, rel_index_path, strategy)`.  A non-list truthy
`crystals` value would raise `TypeError` in the source (only reachable from
a hand-corrupted index); it is modelled as the empty entry list. -/
def select_crystal (w : World) (relIndexPath : String) (strategy : String) :
    World × Option Json :=
  let history := w.state.history
  let skipEvent : Json := .obj [("type", .str "CRYSTAL_SELECT_SKIP"),
    ("reason", .str "NO_CRYSTALS")]
  match attention_normalize_rel_path relIndexPath (some w.workspace_dir) with
  | none => (set_subject_state w (history ++ [skipEvent]) w.state.budget, none)
  | some indexRel =>
    let payload := load_index_payload w.fs indexRel
    let crystalsVal := jGetD payload "crystals" (.arr [])
    let crystals := match crystalsVal with | .arr l => l | _ => []
    if !jTruthy crystalsVal then
      (set_subject_state w (history ++ [skipEvent]) w.state.budget, none)
    else if strategy ≠ "latest" then
      (set_subject_state w (history ++ [skipEvent]) w.state.budget, none)
    else
      match select_latest crystals with
      | none => (set_subject_state w (history ++ [skipEvent]) w.state.budget, none)
      | some entry =>
        let signature : Json := selected_signature w.fs entry
        let event : Json := .obj [("type", .str "CRYSTAL_SELECT"),
          ("reason", .str "LATEST"), ("index", jGetD entry "index" .null),
          ("path", jGetD entry "path" .null), ("signature", signature)]
        (set_subject_state w (history ++ [event]) w.state.budget,
          some (jGetD entry "path" .null))

end Attention

/-! ### Composer (`composer.py`) -/

namespace Composer

/-- `INDEX_VERSION` of `composer.py`. -/
def INDEX_VERSION : String := "0.1"

/-- The tolerant packet-index payload. -/
structure PacketIndex where
  next_index : Int
  packets : List Json
deriving DecidableEq

/-- `_load_index_payload(index_path)` of `composer.py`. -/
def load_index_payload (fs : List (String × FileData)) (path : String) :
    PacketIndex :=
  match fsRead fs path with
  | none => { next_index := 0, packets := [] }
  | some (.textFile _) => { next_index := 0, packets := [] }
  | some (.jsonFile data) =>
    match data with
    | .obj _ =>
      { next_index := (pyInt (jGet data "next_index")).getD 0,
        packets :=
          match jGet data "packets" with
          | some (.arr entries) => entries.filter (fun e => e.isObj)
          | _ => [] }
    | _ => { next_index := 0, packets := [] }

/-- `compose_packet(state, selection, crystal, rel_dir, tail_n, cost)`.
`selection`/`crystal` are the Python argument values (`.null` for `None`);
the two `_timestamp()` calls are `ts1` (packet) and `ts2` (index entry).
The `_clean_rel_dir`/`_join_rel` helpers are textually identical to the
crystallizer's and are shared. -/
def compose_packet (w : World) (selection crystal : Json) (relDir : String)
    (tailN : Int) (cost : Int) (ts1 ts2 : String) : World × Option String :=
  let history := w.state.history
  let budget := w.state.budget
  if budget < cost then
    let event : Json := .obj [("type", .str "PACKET_SKIP"), ("reason", .str "NO_BUDGET")]
    (set_subject_state w (history ++ [event]) budget, none)
  else if !jTruthy selection then
    let event : Json := .obj [("type", .str "PACKET_SKIP"), ("reason", .str "NO_SELECTION")]
    (set_subject_state w (history ++ [event]) (budget - cost), none)
  else if !jTruthy crystal then
    let event : Json := .obj [("type", .str "PACKET_SKIP"), ("reason", .str "NO_CRYSTAL")]
    (set_subject_state w (history ++ [event]) (budget - cost), none)
  else
  let relDirClean := Crystallizer.clean_rel_dir relDir (some w.workspace_dir)
  let indexRelPath := Crystallizer.join_rel [relDirClean, "index.json"]
  let indexPayload := load_index_payload w.fs indexRelPath
  let nextIndex := indexPayload.next_index
  let packetName := "packet_" ++ format04d nextIndex ++ ".json"
  let packetRelPath := Crystallizer.join_rel [relDirClean, packetName]
  let packet : Json := .obj [("index", .int nextIndex),
    ("version", .str INDEX_VERSION), ("created_at", .str ts1),
    ("crystal", .obj [("path", jGetD selection "path" .null),
      ("signature", jGetD selection "signature" .null),
      ("kind", jGetD crystal "kind" .null)]),
    ("history_tail", .arr (if 0 < tailN then pySliceFrom history (-tailN) else [])),
    ("intent", .str "Summarize crystal and propose next step")]
  let packetBytes := (stable_json packet).utf8ByteSize
  let w1 := write_artifact w packetRelPath (.jsonFile packet)
  if lastEventTypeIs w1.state.history "DENY" then
    let event : Json := .obj [("type", .str "PACKET_SKIP"), ("reason", .str "OTHER"),
      ("detail", .str "MEMBRANE_VIOLATION"), ("path", .str packetRelPath)]
    (set_subject_state w1 (w1.state.history ++ [event]) (budget - cost), none)
  else
  let entry : Json := .obj [("index", .int nextIndex), ("path", .str packetRelPath),
    ("bytes", .int packetBytes), ("crystal_signature", jGetD selection "signature" .null),
    ("created_at", .str ts2)]
  let indexJson : Json := .obj [("version", .str INDEX_VERSION),
    ("next_index", .int (nextIndex + 1)),
    ("packets", .arr (indexPayload.packets ++ [entry]))]
  let w2 := write_artifact w1 indexRelPath (.jsonFile indexJson)
  if lastEventTypeIs w2.state.history "DENY" then
    let event : Json := .obj [("type", .str "PACKET_SKIP"), ("reason", .str "OTHER"),
      ("detail", .str "MEMBRANE_VIOLATION"), ("path", .str indexRelPath)]
    (set_subject_state w2 (w2.state.history ++ [event]) (budget - cost), none)
  else
  let event : Json := .obj [("type", .str "PACKET_WRITE"), ("index", .int nextIndex),
    ("path", .str packetRelPath), ("bytes", .int packetBytes),
    ("crystal_signature", jGetD selection "signature" .null)]
  (set_subject_state w2 (w2.state.history ++ [event]) (budget - cost),
    some packetRelPath)

end Composer

/-! ### Exporter (`exporter.py`) -/

mutual

/-- Python `repr(x)` on JSON-shaped values (string quoting approximated),
used only through `str()` in rendered markdown text. -/
def pyRepr : Json → String
  | .null => "None"
  | .bool true => "True"
  | .bool false => "False"
  | .int n => toString n
  | .str s => "\x27" ++ s ++ "\x27"
  | .arr xs => "[" ++ pyReprList xs ++ "]"
  | .obj fs => "\x7b" ++ pyReprFields fs ++ "\x7d"

/-- Comma-joined element representations. -/
def pyReprList : List Json → String
  | [] => ""
  | [x] => pyRepr x
  | x :: xs => pyRepr x ++ ", " ++ pyReprList xs

/-- Comma-joined `key: value` representations. -/
def pyReprFields : List (String × Json) → String
  | [] => ""
  | [(k, v)] => "\x27" ++ k ++ "\x27: " ++ pyRepr v
  | (k, v) :: fs => "\x27" ++ k ++ "\x27: " ++ pyRepr v ++ ", " ++ pyReprFields fs

end

/-- Python `str(x)` as an f-string interpolates it. -/
def pyStr : Json → String
  | .str s => s
  | j => pyRepr j

namespace Exporter

/-- `_normalize_rel_path` of `exporter.py` is textually identical to the
reader's. -/
def normalize_rel_path (relPath : String) : Option String :=
  reader_normalize_rel_path relPath

/-- Index derivation from an explicit `index` field (when the key is
present). -/
def packet_index_from_field (packet : Json) : Option Int :=
  if jHasKey packet "index" then pyInt (jGet packet "index") else none

/-- Index derivation from a `packet_<n>` filename stem of the recorded
path. -/
def packet_index_from_stem (packet : Json) : Option Int :=
  match jGet packet "path" with
  | some (.str path) =>
    let name := posixStem path
    if pyStartsWith name "packet_" then
      let suffix := pyReplace name "packet_" ""
      if !(suffix == "") && suffix.data.all Char.isDigit then pyIntOfString suffix
      else none
    else none
  | _ => none

/-- `_packet_index(packet)`: explicit `index` field when the key is
present (unparseable values do not fall through to the path), else a
`packet_<n>` stem of the recorded path. -/
def packet_index (packet : Json) : Option Int :=
  if jHasKey packet "index" then pyInt (jGet packet "index")
  else
    match jGet packet "path" with
    | some (.str path) =>
      let name := posixStem path
      if pyStartsWith name "packet_" then
        let suffix := pyReplace name "packet_" ""
        if !(suffix == "") && suffix.data.all Char.isDigit then pyIntOfString suffix
        else none
      else none
    | _ => none

/-- `_render_markdown(packet, packet_index)`. -/
def render_markdown (packet : Json) (packetIndex : Int) : String :=
  let crystal := jGetD packet "crystal" (.obj [])
  let crystalPath := if crystal.isObj then jGetD crystal "path" .null else .null
  let crystalKind := if crystal.isObj then jGetD crystal "kind" .null else .null
  let crystalSignature := if crystal.isObj then jGetD crystal "signature" .null else .null
  let createdAt := jGetD packet "created_at" .null
  let intent := jGetD packet "intent" .null
  let historyTail := jGetD packet "history_tail" (.arr [])
  let payload := jGetD packet "payload" (.obj [])
  let lines : List String := ["# Packet " ++ toString packetIndex,
    "- Created: " ++ pyStr createdAt,
    "- Crystal: " ++ pyStr crystalPath ++ " (kind=" ++ pyStr crystalKind ++
      ", signature=" ++ pyStr crystalSignature ++ ")",
    "- Intent: " ++ pyStr intent, ""]
  let lines := lines ++
    (if payload.isObj && (jHasKey payload "summary" || jHasKey payload "metrics") then
      ["## Crystal payload (if summary/metrics exist)"] ++
      (if jHasKey payload "summary" then
        ["- Summary: " ++ pyStr (jGetD payload "summary" .null)] else []) ++
      (if jHasKey payload "metrics" then
        ["- Metrics: " ++ pyStr (jGetD payload "metrics" .null)] else []) ++
      [""]
    else [])
  let lines := lines ++ ["## History tail", "```json", stable_json historyTail, "```"]
  String.intercalate "\n" lines ++ "\n"

/-- `export_packet_md(state, packet, rel_dir, cost)`. -/
def export_packet_md (w : World) (packet : Json) (relDir : String) (cost : Int) :
    World × Option String :=
  let history := w.state.history
  let budget := w.state.budget
  if budget < cost then
    let event : Json := .obj [("type", .str "EXPORT_SKIP"), ("reason", .str "NO_BUDGET")]
    (set_subject_state w (history ++ [event]) budget, none)
  else
    match packet_index packet with
    | none =>
      let event : Json := .obj [("type", .str "EXPORT_SKIP"),
        ("reason", .str "INVALID_PACKET")]
      (set_subject_state w (history ++ [event]) (budget - cost), none)
    | some pIdx =>
      let relDirClean := Crystallizer.clean_rel_dir relDir (some w.workspace_dir)
      let exportName := "packet_" ++ format04d pIdx ++ ".md"
      let exportRelPath := Crystallizer.join_rel [relDirClean, exportName]
      let markdown := render_markdown packet pIdx
      let exportBytes := markdown.utf8ByteSize
      let w1 := write_artifact w exportRelPath (.textFile markdown)
      if lastEventTypeIs w1.state.history "DENY" then
        let event : Json := .obj [("type", .str "EXPORT_SKIP"), ("reason", .str "OTHER"),
          ("detail", .str "MEMBRANE_VIOLATION"), ("path", .str exportRelPath)]
        (set_subject_state w1 (w1.state.history ++ [event]) (budget - cost), none)
      else
        let crystal := jGetD packet "crystal" (.obj [])
        let event : Json := .obj [("type", .str "EXPORT_WRITE"),
          ("path", .str exportRelPath), ("bytes", .int exportBytes),
          ("packet_index", .int pIdx),
          ("crystal_signature",
            if crystal.isObj then jGetD crystal "signature" .null else .null)]
        (set_subject_state w1 (w1.state.history ++ [event]) (budget - cost),
          some exportRelPath)

end Exporter

/-! ## Concrete scenario data used by witness theorems -/

/-- A STEP-shaped event, as the tests build them. -/
def mkStepEvent (i : Int) : Json :=
  .obj [("type", .str "STEP"), ("input", .int i), ("result", .int i),
    ("cost", .int 1), ("budget_after", .int (10 - i))]

/-- A five-event history. -/
def histFive : List Json :=
  [mkStepEvent 0, mkStepEvent 1, mkStepEvent 2, mkStepEvent 3, mkStepEvent 4]

/-- Fresh workspace with a one-event history and budget 2. -/
def wOneEvent : World :=
  { state := { value := 0, history := [mkStepEvent 0], budget := 2 },
    workspace_dir := "tmp", fs := [] }

/-- Fresh workspace with five history events and budget 1. -/
def wFive : World :=
  { state := { value := 0, history := histFive, budget := 1 },
    workspace_dir := "tmp", fs := [] }

/-- Zero-budget world. -/
def wZero : World :=
  { state := { value := 4, history := [], budget := 0 },
    workspace_dir := "ws", fs := [] }

/-- Budget-two empty-history world. -/
def wTwo : World :=
  { state := { value := 0, history := [], budget := 2 },
    workspace_dir := "tmp", fs := [] }

/-- The selector-test index entries. -/
def selEntryA : Json :=
  .obj [("index", .int 0), ("path", .str "crystals/crystal_0000.json"),
    ("signature", .str "a"), ("kind", .str "event_digest")]

/-- Second selector-test entry, the higher index. -/
def selEntryB : Json :=
  .obj [("index", .int 2), ("path", .str "crystals/crystal_0002.json"),
    ("signature", .str "index_sig"), ("kind", .str "event_digest")]

/-- A crystal file with a fresh signature for the selector test. -/
def selCrystalFile : Json :=
  .obj [("version", .str "0.2"), ("kind", .str "event_digest"),
    ("signature", .str "file_sig"), ("payload", .obj [("events", .arr [])])]

/-- Selector-test index payload. -/
def selIndexFile : Json :=
  .obj [("version", .str "0.2"), ("next_index", .int 3),
    ("last_event_index", .int 5), ("crystals", .arr [selEntryA, selEntryB])]

/-- Selector-test world with index and crystal file on disk. -/
def wSel : World :=
  { state := { value := 0, history := [], budget := 1 },
    workspace_dir := "tmp",
    fs := [("crystals/index.json", .jsonFile selIndexFile),
           ("crystals/crystal_0002.json", .jsonFile selCrystalFile)] }

/-- Re-crystallization world: the subject state of `wOneEvent` paired with
the filesystem produced by a first successful crystallization, so the same
new-event slice is presented again. -/
def wDup : World :=
  { state := wOneEvent.state, workspace_dir := wOneEvent.workspace_dir,
    fs := (Crystallizer.crystallize wOneEvent "crystals" 1 "T1" "T2").1.fs }

/-! ## Helper lemmas -/

theorem fsRead_fsWrite_self (fs : List (String × FileData)) (p : String)
    (d : FileData) : fsRead (fsWrite fs p d) p = some d := by
  simp [fsRead, fsWrite]

theorem fsRead_fsWrite_ne (fs : List (String × FileData)) (p q : String)
    (d : FileData) (h : q ≠ p) : fsRead (fsWrite fs p d) q = fsRead fs q := by
  simp only [fsRead, fsWrite]
  rw [List.find?_cons_of_neg]
  simp [Ne.symm h]

theorem lastEventTypeIs_concat (l : List Json) (e : Json) (t : String) :
    lastEventTypeIs (l ++ [e]) t = (jGet e "type" == some (.str t)) := by
  simp [lastEventTypeIs, List.getLast?_concat]

theorem write_artifact_rejected (w : World) (p : String) (c : FileData)
    (h : membraneRejects p = true) :
    write_artifact w p c =
      { w with state := { value := w.state.value,
                          history := w.state.history ++
                            [Json.obj [("type", .str "DENY"),
                              ("reason", .str "MEMBRANE_VIOLATION"),
                              ("path", .str p)]],
                          budget := w.state.budget } } := by
  simp only [write_artifact, h]
  rfl

theorem write_artifact_allowed (w : World) (p : String) (c : FileData)
    (h : membraneRejects p = false) :
    write_artifact w p c =
      { state := { value := w.state.value,
                   history := w.state.history ++
                     [Json.obj [("type", .str "ARTIFACT_WRITE"),
                       ("path", .str p),
                       ("bytes", .int (c.text.utf8ByteSize : Int))]],
                   budget := w.state.budget },
        workspace_dir := w.workspace_dir,
        fs := fsWrite w.fs p c } := by
  simp only [write_artifact, h]
  rfl

theorem write_artifact_deny_iff (w : World) (p : String) (c : FileData) :
    lastEventTypeIs (write_artifact w p c).state.history "DENY" =
      membraneRejects p := by
  by_cases h : membraneRejects p = true
  · rw [write_artifact_rejected w p c h, h]
    simp [lastEventTypeIs_concat, jGet]
  · have h' : membraneRejects p = false := eq_false_of_ne_true h
    rw [write_artifact_allowed w p c h', h']
    simp [lastEventTypeIs_concat, jGet]

theorem pyStartsWith_empty_append_slash (t : String) :
    pyStartsWith "" (t ++ "/") = false := by
  simp only [pyStartsWith, String.data_append]
  cases t.data with
  | nil => rfl
  | cons c cs => rfl

theorem step_budget_nonneg (w : World) (i : Int) (h : 0 ≤ w.state.budget) :
    0 ≤ (step w i).state.budget := by
  simp only [step, STEP_COST]
  split
  · exact h
  · simp only []
    omega

theorem stepMany_budget_nonneg :
    ∀ (inputs : List Int) (w : World), 0 ≤ w.state.budget →
      0 ≤ (stepMany w inputs).state.budget
  | [], _, h => h
  | i :: rest, w, h =>
    stepMany_budget_nonneg rest (step w i) (step_budget_nonneg w i h)

/-! ## Claims -/

/-- C3: `step` with its cost fixed at 1: if `budget < 1` it appends
DENY(reason=NO_BUDGET, input, budget) and leaves value and budget
unchanged (no charge); otherwise it adds the input to the value, charges
one budget unit, and appends a STEP event carrying input, result, cost
and budget_after. -/
theorem step_functional_spec (w : World) (i : Int) :
    (w.state.budget < 1 →
      (step w i).state.value = w.state.value ∧
      (step w i).state.budget = w.state.budget ∧
      (step w i).state.history = w.state.history ++
        [Json.obj [("type", .str "DENY"), ("reason", .str "NO_BUDGET"),
          ("input", .int i), ("budget", .int w.state.budget)]]) ∧
    (¬ w.state.budget < 1 →
      (step w i).state.value = w.state.value + i ∧
      (step w i).state.budget = w.state.budget - 1 ∧
      (step w i).state.history = w.state.history ++
        [Json.obj [("type", .str "STEP"), ("input", .int i),
          ("result", .int (w.state.value + i)), ("cost", .int 1),
          ("budget_after", .int (w.state.budget - 1))]]) := by
  constructor
  · intro h
    simp [step, STEP_COST, if_pos h]
  · intro h
    simp [step, STEP_COST, if_neg h]

/-- Witness for C3: both branches of the step contract at concrete
states. -/
theorem step_functional_spec_witness :
    ((step wZero 5).state.value = wZero.state.value ∧
      (step wZero 5).state.budget = wZero.state.budget ∧
      (step wZero 5).state.history = wZero.state.history ++
        [Json.obj [("type", .str "DENY"), ("reason", .str "NO_BUDGET"),
          ("input", .int 5), ("budget", .int wZero.state.budget)]]) ∧
    ((step wTwo 5).state.value = wTwo.state.value + 5 ∧
      (step wTwo 5).state.budget = wTwo.state.budget - 1 ∧
      (step wTwo 5).state.history = wTwo.state.history ++
        [Json.obj [("type", .str "STEP"), ("input", .int 5),
          ("result", .int (wTwo.state.value + 5)), ("cost", .int 1),
          ("budget_after", .int (wTwo.state.budget - 1))]]) :=
  ⟨(step_functional_spec wZero 5).1 (by decide),
   (step_functional_spec wTwo 5).2 (by decide)⟩

/-- C1: from a non-negative initial budget, the budget is non-negative
after every prefix of a sequence of `step` calls, and any `step` call
whose outcome is a DENY event leaves the budget exactly unchanged. -/
theorem step_budget_invariant (w : World) (inputs : List Int)
    (h0 : 0 ≤ w.state.budget) :
    (∀ pre suf : List Int, inputs = pre ++ suf →
      0 ≤ (stepMany w pre).state.budget) ∧
    (∀ (u : World) (i : Int),
      lastEventTypeIs (step u i).state.history "DENY" = true →
      (step u i).state.budget = u.state.budget) := by
  constructor
  · intro pre _ _
    exact stepMany_budget_nonneg pre w h0
  · intro u i hden
    by_cases h : u.state.budget < STEP_COST
    · simp only [step, if_pos h]
    · exfalso
      simp only [step, if_neg h] at hden
      rw [lastEventTypeIs_concat] at hden
      simp [jGet] at hden

/-- Witness for C1 at a concrete initial budget and input sequence that
exhausts it (the third call is denied). -/
theorem step_budget_invariant_witness :
    (∀ pre suf : List Int, [5, -3, 7] = pre ++ suf →
      0 ≤ (stepMany wTwo pre).state.budget) ∧
    (∀ (u : World) (i : Int),
      lastEventTypeIs (step u i).state.history "DENY" = true →
      (step u i).state.budget = u.state.budget) :=
  step_budget_invariant wTwo [5, -3, 7] (by decide)

/-- C7: `rollback(snapshot)` restores the snapshot's value and budget and
replaces the history by the snapshot's history plus exactly one appended
ROLLBACK(to_value, to_budget) event: whatever was appended to the live
history after the snapshot was captured is discarded. -/
theorem rollback_spec (w : World) (snap : SubjectState) (tail : List Json)
    (hl : w.state.history = snap.history ++ tail) :
    (rollback w snap).state.value = snap.value ∧
    (rollback w snap).state.budget = snap.budget ∧
    (rollback w snap).state.history = snap.history ++
      [Json.obj [("type", .str "ROLLBACK"), ("to_value", .int snap.value),
        ("to_budget", .int snap.budget)]] :=
  ⟨rfl, rfl, rfl⟩

/-- Witness for C7: a concrete session whose live history extends the
snapshot by one event. -/
theorem rollback_spec_witness :
    (rollback (step wTwo 5) (snapshot wTwo)).state.value =
      (snapshot wTwo).value ∧
    (rollback (step wTwo 5) (snapshot wTwo)).state.budget =
      (snapshot wTwo).budget ∧
    (rollback (step wTwo 5) (snapshot wTwo)).state.history =
      (snapshot wTwo).history ++
      [Json.obj [("type", .str "ROLLBACK"),
        ("to_value", .int (snapshot wTwo).value),
        ("to_budget", .int (snapshot wTwo).budget)]] :=
  rollback_spec (step wTwo 5) (snapshot wTwo)
    [Json.obj [("type", .str "STEP"), ("input", .int 5), ("result", .int 5),
      ("cost", .int 1), ("budget_after", .int 1)]] (by decide)

/-- C2: `write_artifact` rejects a path exactly when it is absolute,
carries a Windows drive or root marker, or contains a `..` segment under
either POSIX-style or Windows-style parsing; rejection appends a
DENY(MEMBRANE_VIOLATION, path) event and performs no filesystem write,
while a non-rejected path is written; `"../x"`, `"/x"` and `"C:/x"` are
all rejected. -/
theorem write_artifact_membrane (w : World) (relPath : String) (c : FileData) :
    (membraneRejects relPath =
      ((posixIsAbsolute relPath || winIsAbsolute relPath) ||
       (!(winDrive relPath).isEmpty || !(winRoot relPath).isEmpty) ||
       (posixHasParentRef relPath || winHasParentRef relPath))) ∧
    (membraneRejects relPath = true →
      (write_artifact w relPath c).fs = w.fs ∧
      (write_artifact w relPath c).state.value = w.state.value ∧
      (write_artifact w relPath c).state.budget = w.state.budget ∧
      (write_artifact w relPath c).state.history = w.state.history ++
        [Json.obj [("type", .str "DENY"), ("reason", .str "MEMBRANE_VIOLATION"),
          ("path", .str relPath)]]) ∧
    (membraneRejects relPath = false →
      (write_artifact w relPath c).fs = fsWrite w.fs relPath c ∧
      (write_artifact w relPath c).state.history = w.state.history ++
        [Json.obj [("type", .str "ARTIFACT_WRITE"), ("path", .str relPath),
          ("bytes", .int (c.text.utf8ByteSize : Int))]]) ∧
    (membraneRejects "../x" = true ∧ membraneRejects "/x" = true ∧
      membraneRejects "C:/x" = true) := by
  refine ⟨rfl, ?_, ?_, by decide⟩
  · intro h
    rw [write_artifact_rejected w relPath c h]
    exact ⟨rfl, rfl, rfl, rfl⟩
  · intro h
    rw [write_artifact_allowed w relPath c h]
    exact ⟨rfl, rfl⟩

/-- Witness for C2: the traversal path `"../x"` is denied on a concrete
world with no filesystem mutation. -/
theorem write_artifact_membrane_witness :
    membraneRejects "../x" = true ∧
    ((write_artifact wTwo "../x" (.textFile "x")).fs = wTwo.fs ∧
     (write_artifact wTwo "../x" (.textFile "x")).state.value = wTwo.state.value ∧
     (write_artifact wTwo "../x" (.textFile "x")).state.budget = wTwo.state.budget ∧
     (write_artifact wTwo "../x" (.textFile "x")).state.history =
       wTwo.state.history ++
       [Json.obj [("type", .str "DENY"), ("reason", .str "MEMBRANE_VIOLATION"),
         ("path", .str "../x")]]) :=
  ⟨by decide,
   (write_artifact_membrane wTwo "../x" (.textFile "x")).2.1 (by decide)⟩

/-- C10: the membrane does not reject the empty relative path: `""` gets
no DENY event and the write is attempted against the workspace root
itself, while the reader's, the selector's and the exporter's path
normalizers classify `""` as invalid and `read_crystal` fails with
VIOLATION on it. -/
theorem empty_path_membrane_gap :
    membraneRejects "" = false ∧
    (∀ (w : World) (c : FileData),
      (write_artifact w "" c).state.history = w.state.history ++
        [Json.obj [("type", .str "ARTIFACT_WRITE"), ("path", .str ""),
          ("bytes", .int (c.text.utf8ByteSize : Int))]] ∧
      (write_artifact w "" c).fs = fsWrite w.fs "" c) ∧
    reader_normalize_rel_path "" = none ∧
    (∀ ws : Option String, attention_normalize_rel_path "" ws = none) ∧
    Exporter.normalize_rel_path "" = none ∧
    (∀ (fs : List (String × FileData)) (es : Option String),
      Reader.read_crystal fs "" es = .error ⟨"VIOLATION", none⟩) := by
  refine ⟨by decide, ?_, by decide, ?_, by decide, ?_⟩
  · intro w c
    rw [write_artifact_allowed w "" c (by decide)]
    exact ⟨rfl, rfl⟩
  · intro ws
    cases ws with
    | none => decide
    | some s =>
      by_cases hs : s = ""
      · subst hs; decide
      · have e0 : pyStrip ['/'] (pyReplace "" "\\" "/") = "" := by decide
        simp only [attention_normalize_rel_path, e0]
        rw [if_neg hs, pyStartsWith_empty_append_slash]
        simp
  · intro fs es
    simp [Reader.read_crystal, show reader_normalize_rel_path "" = none from by decide]

theorem jGet_str_inj {ev : Json} {k s rs : String}
    (h1 : jGet ev k = some (.str rs)) (h0 : jGet ev k = some (.str s)) :
    rs = s := by
  rw [h0] at h1
  injection h1 with h2
  injection h2 with h3
  exact h3.symm

theorem packet_index_split (p : Json) :
    Exporter.packet_index p =
      if jHasKey p "index" then Exporter.packet_index_from_field p
      else Exporter.packet_index_from_stem p := by
  by_cases h : jHasKey p "index" = true <;>
    simp [Exporter.packet_index, Exporter.packet_index_from_field,
      Exporter.packet_index_from_stem, h]

/-- C9: `export_packet_md` succeeds only when the packet's index is
derivable from an explicit integer `index` field or from a `packet_<n>`
filename stem of the recorded path; when neither derivation yields an
integer (and the budget suffices), it appends
EXPORT_SKIP(reason=INVALID_PACKET), charges the cost, writes no file and
returns no path. -/
theorem export_packet_md_index_gate (w : World) (packet : Json)
    (relDir : String) (cost : Int) (hb : cost ≤ w.state.budget) :
    ((Exporter.export_packet_md w packet relDir cost).2.isSome = true →
      (Exporter.packet_index_from_field packet).isSome = true ∨
      (Exporter.packet_index_from_stem packet).isSome = true) ∧
    (Exporter.packet_index_from_field packet = none →
     Exporter.packet_index_from_stem packet = none →
      (Exporter.export_packet_md w packet relDir cost).2 = none ∧
      (Exporter.export_packet_md w packet relDir cost).1.fs = w.fs ∧
      (Exporter.export_packet_md w packet relDir cost).1.state.budget =
        w.state.budget - cost ∧
      (Exporter.export_packet_md w packet relDir cost).1.state.history =
        w.state.history ++ [Json.obj [("type", .str "EXPORT_SKIP"),
          ("reason", .str "INVALID_PACKET")]]) := by
  have hnb : ¬ (w.state.budget < cost) := not_lt.mpr hb
  constructor
  · intro hsome
    rcases hpi : Exporter.packet_index packet with _ | n
    · exfalso
      simp only [Exporter.export_packet_md, if_neg hnb, hpi] at hsome
      simp at hsome
    · rw [packet_index_split] at hpi
      by_cases hk : jHasKey packet "index" = true
      · left; rw [if_pos hk] at hpi; simp [hpi]
      · right; rw [if_neg hk] at hpi; simp [hpi]
  · intro hf hs
    have hpi : Exporter.packet_index packet = none := by
      rw [packet_index_split]
      by_cases hk : jHasKey packet "index" = true
      · rw [if_pos hk]; exact hf
      · rw [if_neg hk]; exact hs
    simp [Exporter.export_packet_md, if_neg hnb, hpi, set_subject_state]

/-- Witness for C9: a packet carrying neither an `index` field nor a
`packet_<n>` path is skipped as INVALID_PACKET and charged. -/
theorem export_packet_md_index_gate_witness :
    (Exporter.export_packet_md wTwo (.obj [("path", .str "nope.json")])
        "storage/exports" 1).2 = none ∧
    (Exporter.export_packet_md wTwo (.obj [("path", .str "nope.json")])
        "storage/exports" 1).1.fs = wTwo.fs ∧
    (Exporter.export_packet_md wTwo (.obj [("path", .str "nope.json")])
        "storage/exports" 1).1.state.budget = wTwo.state.budget - 1 ∧
    (Exporter.export_packet_md wTwo (.obj [("path", .str "nope.json")])
        "storage/exports" 1).1.state.history = wTwo.state.history ++
      [Json.obj [("type", .str "EXPORT_SKIP"),
        ("reason", .str "INVALID_PACKET")]] :=
  (export_packet_md_index_gate wTwo (.obj [("path", .str "nope.json")])
    "storage/exports" 1 (by decide)).2 (by decide) (by decide)

/-- C6: the budget-charging rule for skips is asymmetric: for
`crystallize`, `compose_packet` and `export_packet_md`, a skip whose
reason is NO_BUDGET leaves the budget unchanged, while a skip with any
other reason decreases the budget by the operation's cost. -/
theorem skip_budget_charging :
    (∀ (w : World) (relDir : String) (minN : Int) (ts1 ts2 : String)
        (w' : World) (r : Option String) (e : Json),
      Crystallizer.crystallize w relDir minN ts1 ts2 = (w', r) →
      w'.state.history.getLast? = some e →
      jGet e "type" = some (.str "CRYSTAL_SKIP") →
      ((jGet e "reason" = some (.str "NO_BUDGET") →
          w'.state.budget = w.state.budget) ∧
       (∀ rs : String, jGet e "reason" = some (.str rs) → rs ≠ "NO_BUDGET" →
          w'.state.budget = w.state.budget - Crystallizer.CRYSTAL_COST))) ∧
    (∀ (w : World) (selection crystal : Json) (relDir : String)
        (tailN cost : Int) (ts1 ts2 : String)
        (w' : World) (r : Option String) (e : Json),
      Composer.compose_packet w selection crystal relDir tailN cost ts1 ts2 =
        (w', r) →
      w'.state.history.getLast? = some e →
      jGet e "type" = some (.str "PACKET_SKIP") →
      ((jGet e "reason" = some (.str "NO_BUDGET") →
          w'.state.budget = w.state.budget) ∧
       (∀ rs : String, jGet e "reason" = some (.str rs) → rs ≠ "NO_BUDGET" →
          w'.state.budget = w.state.budget - cost))) ∧
    (∀ (w : World) (packet : Json) (relDir : String) (cost : Int)
        (w' : World) (r : Option String) (e : Json),
      Exporter.export_packet_md w packet relDir cost = (w', r) →
      w'.state.history.getLast? = some e →
      jGet e "type" = some (.str "EXPORT_SKIP") →
      ((jGet e "reason" = some (.str "NO_BUDGET") →
          w'.state.budget = w.state.budget) ∧
       (∀ rs : String, jGet e "reason" = some (.str rs) → rs ≠ "NO_BUDGET" →
          w'.state.budget = w.state.budget - cost))) := by
  refine ⟨?_, ?_, ?_⟩
  · intro w relDir minN ts1 ts2 w' r e hcr hlast htype
    simp only [Crystallizer.crystallize] at hcr
    split at hcr
    · injection hcr with hw hr; subst hw
      simp only [set_subject_state, List.getLast?_concat, Option.some.injEq]
        at hlast
      subst hlast
      exact ⟨fun _ => rfl, fun rs hrs hne => absurd (jGet_str_inj hrs rfl) hne⟩
    · split at hcr
      · injection hcr with hw hr; subst hw
        simp only [set_subject_state, List.getLast?_concat, Option.some.injEq]
          at hlast
        subst hlast
        exact ⟨fun h => absurd (jGet_str_inj h rfl) (by decide),
          fun _ _ _ => rfl⟩
      · split at hcr
        · injection hcr with hw hr; subst hw
          simp only [set_subject_state, List.getLast?_concat, Option.some.injEq]
            at hlast
          subst hlast
          exact ⟨fun h => absurd (jGet_str_inj h rfl) (by decide),
            fun _ _ _ => rfl⟩
        · split at hcr
          · injection hcr with hw hr; subst hw
            simp only [set_subject_state, List.getLast?_concat,
              Option.some.injEq] at hlast
            subst hlast
            exact ⟨fun h => absurd (jGet_str_inj h rfl) (by decide),
              fun _ _ _ => rfl⟩
          · split at hcr
            · injection hcr with hw hr; subst hw
              simp only [set_subject_state, List.getLast?_concat,
                Option.some.injEq] at hlast
              subst hlast
              exact ⟨fun h => absurd (jGet_str_inj h rfl) (by decide),
                fun _ _ _ => rfl⟩
            · injection hcr with hw hr; subst hw
              simp only [set_subject_state, List.getLast?_concat,
                Option.some.injEq] at hlast
              subst hlast
              exact absurd (jGet_str_inj htype rfl) (by decide)
  · intro w selection crystal relDir tailN cost ts1 ts2 w' r e hcr hlast htype
    simp only [Composer.compose_packet] at hcr
    split at hcr
    · injection hcr with hw hr; subst hw
      simp only [set_subject_state, List.getLast?_concat, Option.some.injEq]
        at hlast
      subst hlast
      exact ⟨fun _ => rfl, fun rs hrs hne => absurd (jGet_str_inj hrs rfl) hne⟩
    · split at hcr
      · injection hcr with hw hr; subst hw
        simp only [set_subject_state, List.getLast?_concat, Option.some.injEq]
          at hlast
        subst hlast
        exact ⟨fun h => absurd (jGet_str_inj h rfl) (by decide),
          fun _ _ _ => rfl⟩
      · split at hcr
        · injection hcr with hw hr; subst hw
          simp only [set_subject_state, List.getLast?_concat, Option.some.injEq]
            at hlast
          subst hlast
          exact ⟨fun h => absurd (jGet_str_inj h rfl) (by decide),
            fun _ _ _ => rfl⟩
        · generalize (if 0 < tailN then pySliceFrom w.state.history (-tailN)
            else ([] : List Json)) = htail at hcr
          split at hcr
          · injection hcr with hw hr; subst hw
            simp only [set_subject_state, List.getLast?_concat,
              Option.some.injEq] at hlast
            subst hlast
            exact ⟨fun h => absurd (jGet_str_inj h rfl) (by decide),
              fun _ _ _ => rfl⟩
          · split at hcr
            · injection hcr with hw hr; subst hw
              simp only [set_subject_state, List.getLast?_concat,
                Option.some.injEq] at hlast
              subst hlast
              exact ⟨fun h => absurd (jGet_str_inj h rfl) (by decide),
                fun _ _ _ => rfl⟩
            · injection hcr with hw hr; subst hw
              simp only [set_subject_state, List.getLast?_concat,
                Option.some.injEq] at hlast
              subst hlast
              exact absurd (jGet_str_inj htype rfl) (by decide)
  · intro w packet relDir cost w' r e hcr hlast htype
    simp only [Exporter.export_packet_md] at hcr
    split at hcr
    · injection hcr with hw hr; subst hw
      simp only [set_subject_state, List.getLast?_concat, Option.some.injEq]
        at hlast
      subst hlast
      exact ⟨fun _ => rfl, fun rs hrs hne => absurd (jGet_str_inj hrs rfl) hne⟩
    · split at hcr
      · injection hcr with hw hr; subst hw
        simp only [set_subject_state, List.getLast?_concat, Option.some.injEq]
          at hlast
        subst hlast
        exact ⟨fun h => absurd (jGet_str_inj h rfl) (by decide),
          fun _ _ _ => rfl⟩
      · split at hcr
        · injection hcr with hw hr; subst hw
          simp only [set_subject_state, List.getLast?_concat, Option.some.injEq]
            at hlast
          subst hlast
          exact ⟨fun h => absurd (jGet_str_inj h rfl) (by decide),
            fun _ _ _ => rfl⟩
        · injection hcr with hw hr; subst hw
          simp only [set_subject_state, List.getLast?_concat, Option.some.injEq]
            at hlast
          subst hlast
          exact absurd (jGet_str_inj htype rfl) (by decide)

/-- Witness for C6: at budget zero each of the three operations records a
free NO_BUDGET skip, and a charged NOT_ENOUGH_NEW_EVENTS skip costs one
budget unit. -/
theorem skip_budget_charging_witness :
    (Crystallizer.crystallize wZero "crystals" 5 "T1" "T2").1.state.budget =
      wZero.state.budget ∧
    (Composer.compose_packet wZero .null .null "storage/packets" 20 1
        "T1" "T2").1.state.budget = wZero.state.budget ∧
    (Exporter.export_packet_md wZero (.obj [("index", .int 0)])
        "storage/exports" 1).1.state.budget = wZero.state.budget ∧
    (Crystallizer.crystallize wTwo "crystals" 5 "T1" "T2").1.state.budget =
      wTwo.state.budget - Crystallizer.CRYSTAL_COST :=
  ⟨(skip_budget_charging.1 wZero "crystals" 5 "T1" "T2"
      (Crystallizer.crystallize wZero "crystals" 5 "T1" "T2").1
      (Crystallizer.crystallize wZero "crystals" 5 "T1" "T2").2
      (.obj [("type", .str "CRYSTAL_SKIP"), ("reason", .str "NO_BUDGET"),
        ("last_event_index", .int (-1))])
      rfl (by decide) (by decide)).1 (by decide),
   (skip_budget_charging.2.1 wZero .null .null "storage/packets" 20 1
      "T1" "T2"
      (Composer.compose_packet wZero .null .null "storage/packets" 20 1
        "T1" "T2").1
      (Composer.compose_packet wZero .null .null "storage/packets" 20 1
        "T1" "T2").2
      (.obj [("type", .str "PACKET_SKIP"), ("reason", .str "NO_BUDGET")])
      rfl (by decide) (by decide)).1 (by decide),
   (skip_budget_charging.2.2 wZero (.obj [("index", .int 0)])
      "storage/exports" 1
      (Exporter.export_packet_md wZero (.obj [("index", .int 0)])
        "storage/exports" 1).1
      (Exporter.export_packet_md wZero (.obj [("index", .int 0)])
        "storage/exports" 1).2
      (.obj [("type", .str "EXPORT_SKIP"), ("reason", .str "NO_BUDGET")])
      rfl (by decide) (by decide)).1 (by decide),
   (skip_budget_charging.1 wTwo "crystals" 5 "T1" "T2"
      (Crystallizer.crystallize wTwo "crystals" 5 "T1" "T2").1
      (Crystallizer.crystallize wTwo "crystals" 5 "T1" "T2").2
      (.obj [("type", .str "CRYSTAL_SKIP"),
        ("reason", .str "NOT_ENOUGH_NEW_EVENTS"), ("event_count", .int 0),
        ("min_new_events", .int 5), ("last_event_index", .int (-1))])
      rfl (by decide) (by decide)).2 "NOT_ENOUGH_NEW_EVENTS" (by decide)
      (by decide)⟩

/-! ### Sorted-serialization lemmas: key order does not affect the
canonical bytes -/

theorem charListLtB_asymm : ∀ l m : List Char,
    charListLtB l m = true → charListLtB m l = false := by
  intro l
  induction l with
  | nil =>
    intro m h
    cases m with
    | nil => simp [charListLtB] at h
    | cons d ds => simp [charListLtB]
  | cons c cs ih =>
    intro m h
    cases m with
    | nil => simp [charListLtB] at h
    | cons d ds =>
      simp only [charListLtB] at h ⊢
      by_cases h1 : c.toNat < d.toNat
      · rw [if_neg (by omega), if_pos h1]
      · by_cases h2 : d.toNat < c.toNat
        · rw [if_neg h1, if_pos h2] at h
          exact absurd h (by simp)
        · rw [if_neg h1, if_neg h2] at h
          rw [if_neg h2, if_neg h1]
          exact ih ds h

theorem charListLtB_eq_of_not : ∀ l m : List Char,
    charListLtB l m = false → charListLtB m l = false → l = m := by
  intro l
  induction l with
  | nil =>
    intro m h1 _
    cases m with
    | nil => rfl
    | cons d ds => simp [charListLtB] at h1
  | cons c cs ih =>
    intro m h1 h2
    cases m with
    | nil => simp [charListLtB] at h2
    | cons d ds =>
      simp only [charListLtB] at h1 h2
      by_cases hcd : c.toNat < d.toNat
      · rw [if_pos hcd] at h1; exact absurd h1 (by simp)
      · by_cases hdc : d.toNat < c.toNat
        · rw [if_pos hdc] at h2; exact absurd h2 (by simp)
        · rw [if_neg hcd, if_neg hdc] at h1
          rw [if_neg hdc, if_neg hcd] at h2
          have hc : c = d := by
            have : c.toNat = d.toNat := by omega
            have hval := Char.ofNat_toNat c
            rw [this, Char.ofNat_toNat] at hval
            exact hval.symm
          rw [hc, ih ds h1 h2]

theorem charListLtB_trans : ∀ l m n : List Char,
    charListLtB l m = true → charListLtB m n = true →
    charListLtB l n = true := by
  intro l
  induction l with
  | nil =>
    intro m n _ h2
    cases n with
    | nil =>
      cases m with
      | nil => simpa using h2
      | cons d ds => simp [charListLtB] at h2
    | cons e es => simp [charListLtB]
  | cons c cs ih =>
    intro m n h1 h2
    cases m with
    | nil => simp [charListLtB] at h1
    | cons d ds =>
      cases n with
      | nil => simp [charListLtB] at h2
      | cons e es =>
        simp only [charListLtB] at h1 h2 ⊢
        by_cases hcd : c.toNat < d.toNat
        · by_cases hde : d.toNat < e.toNat
          · rw [if_pos (show c.toNat < e.toNat by omega)]
          · by_cases hed : e.toNat < d.toNat
            · rw [if_neg hde, if_pos hed] at h2
              exact absurd h2 (by simp)
            · rw [if_pos (show c.toNat < e.toNat by omega)]
        · by_cases hdc : d.toNat < c.toNat
          · rw [if_neg hcd, if_pos hdc] at h1
            exact absurd h1 (by simp)
          · rw [if_neg hcd, if_neg hdc] at h1
            by_cases hde : d.toNat < e.toNat
            · rw [if_pos (show c.toNat < e.toNat by omega)]
            · by_cases hed : e.toNat < d.toNat
              · rw [if_neg hde, if_pos hed] at h2
                exact absurd h2 (by simp)
              · rw [if_neg hde, if_neg hed] at h2
                rw [if_neg (by omega), if_neg (by omega)]
                exact ih ds es h1 h2

theorem charListLtB_false_trans (l m n : List Char)
    (h1 : charListLtB l m = false) (h2 : charListLtB m n = false) :
    charListLtB l n = false := by
  by_contra hc
  rw [Bool.not_eq_false] at hc
  rcases hml : charListLtB m l with _ | _
  · have := charListLtB_eq_of_not m l hml (by exact h1)
    subst this
    rw [hc] at h2
    exact absurd h2 (by simp)
  · have := charListLtB_trans m l n hml hc
    rw [this] at h2
    exact absurd h2 (by simp)

theorem str_eq_of_data_eq {a b : String} (h : a.data = b.data) : a = b := by
  cases a; cases b; cases h; rfl

theorem insertField_perm (p : String × Json) (l : List (String × Json)) :
    (insertField p l).Perm (p :: l) := by
  induction l with
  | nil => exact List.Perm.refl _
  | cons q qs ih =>
    simp only [insertField]
    split
    · exact (List.Perm.cons q ih).trans (List.Perm.swap p q qs)
    · exact List.Perm.refl _

theorem sortFields_perm (l : List (String × Json)) : (sortFields l).Perm l := by
  induction l with
  | nil => exact List.Perm.refl _
  | cons p ps ih => exact (insertField_perm p (sortFields ps)).trans (ih.cons p)

theorem sorted_insertField (p : String × Json) (l : List (String × Json))
    (h : l.Sorted (fun a b => strLtB b.1 a.1 = false)) :
    (insertField p l).Sorted (fun a b => strLtB b.1 a.1 = false) := by
  induction l with
  | nil => simp [insertField]
  | cons q qs ih =>
    simp only [insertField]
    split
    · rename_i hlt
      rw [List.sorted_cons]
      refine ⟨?_, ih (List.sorted_cons.mp h).2⟩
      intro b hb
      rcases List.mem_cons.mp ((insertField_perm p qs).mem_iff.mp hb) with
        hbp | hbqs
      · rw [hbp]
        exact charListLtB_asymm _ _ hlt
      · exact (List.sorted_cons.mp h).1 b hbqs
    · rename_i hnlt
      rw [List.sorted_cons]
      refine ⟨?_, h⟩
      intro b hb
      rcases List.mem_cons.mp hb with hbq | hbqs
      · rw [hbq]
        exact eq_false_of_ne_true hnlt
      · exact charListLtB_false_trans _ _ _
          ((List.sorted_cons.mp h).1 b hbqs) (eq_false_of_ne_true hnlt)

theorem sorted_sortFields (l : List (String × Json)) :
    (sortFields l).Sorted (fun a b => strLtB b.1 a.1 = false) := by
  induction l with
  | nil => simp [sortFields]
  | cons p ps ih => exact sorted_insertField p (sortFields ps) ih

theorem eq_of_perm_sorted_nodup_keys :
    ∀ {l₁ l₂ : List (String × Json)}, l₁.Perm l₂ →
      l₁.Sorted (fun a b => strLtB b.1 a.1 = false) →
      l₂.Sorted (fun a b => strLtB b.1 a.1 = false) →
      (l₁.map Prod.fst).Nodup → l₁ = l₂ := by
  intro l₁
  induction l₁ with
  | nil => intro l₂ hp _ _ _; exact hp.nil_eq
  | cons a t ih =>
    intro l₂ hp hs₁ hs₂ hnd
    cases l₂ with
    | nil => exact absurd hp.symm.nil_eq (by simp)
    | cons b t₂ =>
      have hab : a = b := by
        rcases List.mem_cons.mp (hp.subset (List.mem_cons_self a t)) with h | hat₂
        · exact h
        · rcases List.mem_cons.mp (hp.symm.subset (List.mem_cons_self b t₂)) with
            h | hbt
          · exact h.symm
          · exfalso
            have le1 : strLtB b.1 a.1 = false := (List.sorted_cons.mp hs₁).1 b hbt
            have le2 : strLtB a.1 b.1 = false := (List.sorted_cons.mp hs₂).1 a hat₂
            have hkey : b.1 = a.1 :=
              str_eq_of_data_eq (charListLtB_eq_of_not _ _ le1 le2)
            have : a.1 ∈ t.map Prod.fst := hkey ▸ List.mem_map_of_mem Prod.fst hbt
            exact (List.nodup_cons.mp (by simpa using hnd)).1 this
      subst hab
      have := ih hp.cons_inv (List.sorted_cons.mp hs₁).2
        (List.sorted_cons.mp hs₂).2 (by simpa using (List.nodup_cons.mp
          (by simpa using hnd)).2)
      rw [this]

theorem sortKeysDeepFields_eq_map (l : List (String × Json)) :
    Json.sortKeysDeepFields l = l.map (fun p => (p.1, Json.sortKeysDeep p.2)) := by
  induction l with
  | nil => rfl
  | cons p ps ih => cases p; simp [Json.sortKeysDeepFields, ih]

theorem signature_perm_invariant (l₁ l₂ : List (String × Json))
    (h : l₁.Perm l₂) (hnd : (l₁.map Prod.fst).Nodup) :
    Crystallizer.signature_for_crystal (.obj l₁) =
      Crystallizer.signature_for_crystal (.obj l₂) := by
  unfold Crystallizer.signature_for_crystal
  congr 1
  unfold stable_json
  have hmap : (Json.sortKeysDeepFields l₁).Perm (Json.sortKeysDeepFields l₂) := by
    rw [sortKeysDeepFields_eq_map, sortKeysDeepFields_eq_map]
    exact h.map _
  have hkeys : ((Json.sortKeysDeepFields l₁).map Prod.fst).Nodup := by
    rw [sortKeysDeepFields_eq_map, List.map_map]
    have : (Prod.fst ∘ fun p : String × Json => (p.1, Json.sortKeysDeep p.2)) =
        Prod.fst := by funext p; rfl
    rw [this]
    exact hnd
  have : sortFields (Json.sortKeysDeepFields l₁) =
      sortFields (Json.sortKeysDeepFields l₂) :=
    eq_of_perm_sorted_nodup_keys
      ((sortFields_perm _).trans (hmap.trans (sortFields_perm _).symm))
      (sorted_sortFields _) (sorted_sortFields _)
      (((sortFields_perm _).map Prod.fst).nodup_iff.mpr hkeys)
  show Json.render (Json.sortKeysDeep (.obj l₁)) =
    Json.render (Json.sortKeysDeep (.obj l₂))
  simp only [Json.sortKeysDeep, this]

/-! ### SHA-256 digests are nonempty (hence hex signatures are truthy) -/

theorem compressWord_length (st : List Nat) (kw : Nat × Nat) :
    (compressWord st kw).length = st.length := by
  unfold compressWord
  split <;> simp

theorem foldl_compressWord_length (l : List (Nat × Nat)) :
    ∀ st : List Nat, (l.foldl compressWord st).length = st.length := by
  induction l with
  | nil => intro st; rfl
  | cons kw rest ih =>
    intro st
    rw [List.foldl_cons, ih (compressWord st kw), compressWord_length]

theorem processBlock_length (h : List Nat) (b : List Nat) :
    (processBlock h b).length = h.length := by
  unfold processBlock
  simp [foldl_compressWord_length]

theorem foldl_processBlock_length (blocks : List (List Nat)) :
    ∀ h : List Nat, (blocks.foldl processBlock h).length = h.length := by
  induction blocks with
  | nil => intro h; rfl
  | cons b rest ih =>
    intro h
    rw [List.foldl_cons, ih (processBlock h b), processBlock_length]

theorem sha256Digest_ne_nil (msg : List Nat) : sha256Digest msg ≠ [] := by
  show ((((chunk16 (bytesToWords (sha256Pad msg))).foldl processBlock
    shaH0).map (beBytes 4)).flatten) ≠ []
  have hlen : ((chunk16 (bytesToWords (sha256Pad msg))).foldl processBlock
      shaH0).length = 8 := foldl_processBlock_length _ shaH0
  rcases h8 : (chunk16 (bytesToWords (sha256Pad msg))).foldl processBlock shaH0
    with _ | ⟨a, rest⟩
  · rw [h8] at hlen; simp at hlen
  · have hbe : beBytes 4 a = [a >>> 24 % 256, a >>> 16 % 256, a >>> 8 % 256,
        a >>> 0 % 256] := rfl
    simp [hbe]

theorem string_foldl_append_data (l : List String) :
    ∀ init : String, (l.foldl (· ++ ·) init).data =
      init.data ++ (l.map String.data).flatten := by
  induction l with
  | nil => intro init; simp
  | cons x rest ih =>
    intro init
    rw [List.foldl_cons, ih (init ++ x)]
    simp [String.data_append]

theorem sha256HexOfString_ne_empty (s : String) : sha256HexOfString s ≠ "" := by
  unfold sha256HexOfString
  intro hcontra
  have hdata := congrArg String.data hcontra
  rw [string_foldl_append_data] at hdata
  rcases hd : sha256Digest (utf8Bytes s) with _ | ⟨d, rest⟩
  · exact sha256Digest_ne_nil (utf8Bytes s) hd
  · rw [hd] at hdata
    simp [hexByte] at hdata

/-! ### Path bookkeeping for the crystallizer's two writes -/

theorem string_ne_of_data_ne {s t : String} (h : s.data ≠ t.data) : s ≠ t :=
  fun he => h (congrArg String.data he)

theorem pyStrip_no_strip (chars : List Char) (s : String) (c0 cN : Char)
    (l m : List Char) (h0 : s.data = c0 :: l) (h1 : s.data.reverse = cN :: m)
    (hc0 : chars.contains c0 = false) (hcN : chars.contains cN = false) :
    pyStrip chars s = s := by
  show String.mk (((s.data.dropWhile (fun c => chars.contains c)).reverse.dropWhile
    (fun c => chars.contains c)).reverse) = s
  rw [h0, List.dropWhile_cons, hc0]
  simp only [Bool.false_eq_true, if_false]
  rw [← h0, h1, List.dropWhile_cons, hcN]
  simp only [Bool.false_eq_true, if_false]
  rw [← h1, List.reverse_reverse]

theorem crystal_name_data (n : Int) :
    ("crystal_" ++ format04d n ++ ".json").data =
      'c' :: ("rystal_".data ++ (format04d n).data ++ ".json".data) := by
  simp [String.data_append]

theorem crystal_name_data_reverse (n : Int) :
    ("crystal_" ++ format04d n ++ ".json").data.reverse =
      'n' :: ("osj.".data ++ (format04d n).data.reverse ++
        "_latsyrc".data) := by
  rw [crystal_name_data]
  simp [List.reverse_append]

theorem pyStrip_crystal_name (n : Int) :
    pyStrip ['/', '\\'] ("crystal_" ++ format04d n ++ ".json") =
      "crystal_" ++ format04d n ++ ".json" :=
  pyStrip_no_strip _ _ 'c' 'n' _ _ (crystal_name_data n)
    (crystal_name_data_reverse n) rfl rfl

theorem crystal_path_ne_index_path (dc : String) (n : Int) :
    Crystallizer.join_rel [dc, "crystal_" ++ format04d n ++ ".json"] ≠
      Crystallizer.join_rel [dc, "index.json"] := by
  unfold Crystallizer.join_rel
  simp only [List.map_cons, List.map_nil, pyStrip_crystal_name]
  have hidx : pyStrip ['/', '\\'] "index.json" = "index.json" := by decide
  rw [hidx]
  have hcn : (("crystal_" ++ format04d n ++ ".json") == "") = false := by
    have := crystal_name_data n
    simp only [beq_eq_false_iff_ne]
    exact string_ne_of_data_ne (by rw [this]; simp)
  have hin : (("index.json" : String) == "") = false := by decide
  by_cases hdc : (pyStrip ['/', '\\'] dc == "") = true
  · simp only [List.filter, hdc, hcn, hin, Bool.not_true, Bool.not_false]
    show joinSlash ["crystal_" ++ format04d n ++ ".json"] ≠
      joinSlash ["index.json"]
    simp only [joinSlash]
    apply string_ne_of_data_ne
    rw [crystal_name_data]
    intro h
    simp at h
  · simp only [List.filter, Bool.not_eq_true] at hdc
    simp only [List.filter, hdc, hcn, hin, Bool.not_false]
    show joinSlash [pyStrip ['/', '\\'] dc,
      "crystal_" ++ format04d n ++ ".json"] ≠
      joinSlash [pyStrip ['/', '\\'] dc, "index.json"]
    simp only [joinSlash]
    apply string_ne_of_data_ne
    simp only [String.data_append]
    intro h
    have := List.append_cancel_left h
    simp at this

theorem load_index_payload_crystals_isObj (fs : List (String × FileData))
    (p : String) :
    ∀ e ∈ (Crystallizer.load_index_payload fs p).crystals, e.isObj = true := by
  unfold Crystallizer.load_index_payload
  split
  · simp [Crystallizer.default_index_payload]
  · simp [Crystallizer.default_index_payload]
  · split
    · split
      · intro e he
        exact (List.mem_filter.mp he).2
      · simp
    · simp [Crystallizer.default_index_payload]

/-- C4: every crystal produced by `crystallize` records, in the written
file and in the CRYSTAL_WRITE event, a signature equal to the hex SHA-256
of the canonical serialization of exactly the `version`/`kind`/`payload`
object — the `signature` and `created_at` fields are excluded from the
hashed bytes (the timestamps `ts1`, `ts2` are arbitrary) — and the
signature is invariant under the key insertion order of the in-memory
representation. -/
theorem crystal_signature_spec :
    (∀ (w : World) (relDir : String) (minN : Int) (ts1 ts2 : String)
        (w' : World) (p : String),
      Crystallizer.crystallize w relDir minN ts1 ts2 = (w', some p) →
      (fsRead w'.fs p).isSome = true ∧
      (∀ cj : Json, fsRead w'.fs p = some (.jsonFile cj) →
        (∃ pl : Json, jRemoveKeys cj ["signature", "created_at"] =
          .obj [("version", .str Crystallizer.INDEX_VERSION),
            ("kind", .str "event_digest"), ("payload", pl)]) ∧
        jGet cj "signature" = some (.str (Crystallizer.signature_for_crystal
          (jRemoveKeys cj ["signature", "created_at"]))) ∧
        jGet cj "created_at" = some (.str ts1) ∧
        (∀ ev : Json, w'.state.history.getLast? = some ev →
          jGet ev "type" = some (.str "CRYSTAL_WRITE") ∧
          jGet ev "signature" = jGet cj "signature"))) ∧
    (∀ j : Json, Crystallizer.signature_for_crystal j =
      sha256HexOfString (stable_json j)) ∧
    (∀ l₁ l₂ : List (String × Json), l₁.Perm l₂ →
      (l₁.map Prod.fst).Nodup →
      Crystallizer.signature_for_crystal (.obj l₁) =
        Crystallizer.signature_for_crystal (.obj l₂)) := by
  refine ⟨?_, fun j => rfl, signature_perm_invariant⟩
  intro w relDir minN ts1 ts2 w' p h
  simp only [Crystallizer.crystallize] at h
  split at h
  · injection h with hw hr; exact Option.noConfusion hr
  · split at h
    · injection h with hw hr; exact Option.noConfusion hr
    · split at h
      · injection h with hw hr; exact Option.noConfusion hr
      · split at h
        · injection h with hw hr; exact Option.noConfusion hr
        · split at h
          · injection h with hw hr; exact Option.noConfusion hr
          · rename_i hb4 hb5
            rw [write_artifact_deny_iff] at hb4 hb5
            have hm1 := eq_false_of_ne_true hb4
            have hm2 := eq_false_of_ne_true hb5
            injection h with hw hr
            injection hr with hp
            subst hp
            subst hw
            constructor
            · show (fsRead (write_artifact (write_artifact w _ _) _ _).fs _).isSome
                = true
              rw [write_artifact_allowed _ _ _ hm2]
              rw [fsRead_fsWrite_ne _ _ _ _ (crystal_path_ne_index_path _ _)]
              rw [write_artifact_allowed _ _ _ hm1]
              rw [fsRead_fsWrite_self]
              rfl
            · intro cj hcj
              simp only [set_subject_state] at hcj
              rw [write_artifact_allowed _ _ _ hm2] at hcj
              rw [fsRead_fsWrite_ne _ _ _ _ (crystal_path_ne_index_path _ _)]
                at hcj
              rw [write_artifact_allowed _ _ _ hm1] at hcj
              rw [fsRead_fsWrite_self] at hcj
              injection hcj with hcj
              injection hcj with hcj
              subst hcj
              refine ⟨⟨_, rfl⟩, rfl, rfl, ?_⟩
              intro ev hev
              simp only [set_subject_state, List.getLast?_concat] at hev
              injection hev with hev
              subst hev
              exact ⟨rfl, rfl⟩

set_option maxRecDepth 100000 in
/-- Witness for C4: a concrete one-event crystallization; its recorded
signature hashes the file minus `signature`/`created_at`, and a concrete
two-field permutation leaves the signature unchanged. -/
theorem crystal_signature_spec_witness :
    ((fsRead (Crystallizer.crystallize wOneEvent "crystals" 1 "T1" "T2").1.fs
        "crystals/crystal_0000.json").isSome = true ∧
     (∀ cj : Json,
      fsRead (Crystallizer.crystallize wOneEvent "crystals" 1 "T1" "T2").1.fs
        "crystals/crystal_0000.json" = some (.jsonFile cj) →
      (∃ pl : Json, jRemoveKeys cj ["signature", "created_at"] =
        .obj [("version", .str Crystallizer.INDEX_VERSION),
          ("kind", .str "event_digest"), ("payload", pl)]) ∧
      jGet cj "signature" = some (.str (Crystallizer.signature_for_crystal
        (jRemoveKeys cj ["signature", "created_at"]))) ∧
      jGet cj "created_at" = some (.str "T1") ∧
      (∀ ev : Json, (Crystallizer.crystallize wOneEvent "crystals" 1 "T1"
          "T2").1.state.history.getLast? = some ev →
        jGet ev "type" = some (.str "CRYSTAL_WRITE") ∧
        jGet ev "signature" = jGet cj "signature"))) ∧
    Crystallizer.signature_for_crystal (.obj [("b", .int 1), ("a", .null)]) =
      Crystallizer.signature_for_crystal (.obj [("a", .null), ("b", .int 1)]) :=
  ⟨crystal_signature_spec.1 wOneEvent "crystals" 1 "T1" "T2"
    (Crystallizer.crystallize wOneEvent "crystals" 1 "T1" "T2").1
    "crystals/crystal_0000.json" (by decide),
   crystal_signature_spec.2.2 [("b", .int 1), ("a", .null)]
    [("a", .null), ("b", .int 1)] (by decide) (by decide)⟩

/-! ### Selector loop lemmas -/

theorem jGet_non_obj {e : Json} (h : e.isObj = false) (k : String) :
    jGet e k = none := by
  cases e <;> simp [jGet] <;> simp [Json.isObj] at h

theorem select_latest_loop_origin :
    ∀ (entries : List Json) (acc : Option (Json × Int)) (p : Json × Int),
      Attention.select_latest_loop entries acc = some p →
      acc = some p ∨ (p.1 ∈ entries ∧ pyInt (jGet p.1 "index") = some p.2) := by
  intro entries
  induction entries with
  | nil => intro acc p h; exact Or.inl h
  | cons e rest ih =>
    intro acc p h
    simp only [Attention.select_latest_loop] at h
    split at h
    · rcases ih acc p h with h1 | h1
      · exact Or.inl h1
      · exact Or.inr ⟨List.mem_cons_of_mem e h1.1, h1.2⟩
    · rename_i hobj
      split at h
      · rcases ih acc p h with h1 | h1
        · exact Or.inl h1
        · exact Or.inr ⟨List.mem_cons_of_mem e h1.1, h1.2⟩
      · rename_i v hv
        split at h
        · rcases ih _ p h with h1 | h1
          · injection h1 with h1
            exact Or.inr ⟨h1 ▸ List.mem_cons_self e rest, h1 ▸ hv⟩
          · exact Or.inr ⟨List.mem_cons_of_mem e h1.1, h1.2⟩
        · split at h
          · rcases ih _ p h with h1 | h1
            · injection h1 with h1
              exact Or.inr ⟨h1 ▸ List.mem_cons_self e rest, h1 ▸ hv⟩
            · exact Or.inr ⟨List.mem_cons_of_mem e h1.1, h1.2⟩
          · rcases ih _ p h with h1 | h1
            · exact Or.inl h1
            · exact Or.inr ⟨List.mem_cons_of_mem e h1.1, h1.2⟩

theorem select_latest_loop_lower :
    ∀ (entries : List Json) (be : Json) (bv : Int) (p : Json × Int),
      Attention.select_latest_loop entries (some (be, bv)) = some p →
      bv ≤ p.2 := by
  intro entries
  induction entries with
  | nil =>
    intro be bv p h
    injection h with h
    rw [← h]
  | cons e rest ih =>
    intro be bv p h
    simp only [Attention.select_latest_loop] at h
    split at h
    · exact ih be bv p h
    · split at h
      · exact ih be bv p h
      · split at h
        · rename_i v hv hlt
          have := ih e v p h
          omega
        · exact ih be bv p h

theorem select_latest_loop_none :
    ∀ (entries : List Json) (acc : Option (Json × Int)),
      Attention.select_latest_loop entries acc = none →
      acc = none ∧ ∀ e ∈ entries, pyInt (jGet e "index") = none := by
  intro entries
  induction entries with
  | nil =>
    intro acc h
    exact ⟨h, by simp⟩
  | cons e rest ih =>
    intro acc h
    simp only [Attention.select_latest_loop] at h
    split at h
    · rename_i hobj
      rcases ih acc h with ⟨ha, hrest⟩
      refine ⟨ha, ?_⟩
      intro e' he'
      rcases List.mem_cons.mp he' with h1 | h1
      · rw [h1, jGet_non_obj (by simpa using hobj)]
        rfl
      · exact hrest e' h1
    · split at h
      · rename_i hv
        rcases ih acc h with ⟨ha, hrest⟩
        refine ⟨ha, ?_⟩
        intro e' he'
        rcases List.mem_cons.mp he' with h1 | h1
        · rw [h1, hv]
        · exact hrest e' h1
      · split at h
        · exact absurd (ih _ h).1 (by simp)
        · split at h
          · exact absurd (ih _ h).1 (by simp)
          · exact absurd (ih _ h).1 (by simp)

theorem select_latest_loop_max :
    ∀ (entries : List Json) (acc : Option (Json × Int)) (p : Json × Int),
      Attention.select_latest_loop entries acc = some p →
      ∀ e ∈ entries, ∀ v : Int, pyInt (jGet e "index") = some v → v ≤ p.2 := by
  intro entries
  induction entries with
  | nil => intro acc p _ e he; exact absurd he (by simp)
  | cons e0 rest ih =>
    intro acc p h e he v hv
    simp only [Attention.select_latest_loop] at h
    split at h
    · rename_i hobj
      rcases List.mem_cons.mp he with h1 | h1
      · rw [h1, jGet_non_obj (by simpa using hobj)] at hv
        exact absurd hv (by simp [pyInt])
      · exact ih acc p h e h1 v hv
    · split at h
      · rename_i hnone
        rcases List.mem_cons.mp he with h1 | h1
        · rw [h1, hnone] at hv
          exact absurd hv (by simp)
        · exact ih acc p h e h1 v hv
      · rename_i v0 hv0
        split at h
        · rcases List.mem_cons.mp he with h1 | h1
          · rw [h1, hv0] at hv
            injection hv with hv
            have hb := select_latest_loop_lower rest e0 v0 p h
            omega
          · exact ih _ p h e h1 v hv
        · rename_i be bv
          split at h
          · rcases List.mem_cons.mp he with h1 | h1
            · rw [h1, hv0] at hv
              injection hv with hv
              have hb := select_latest_loop_lower rest e0 v0 p h
              omega
            · exact ih _ p h e h1 v hv
          · rename_i hnlt
            rcases List.mem_cons.mp he with h1 | h1
            · rw [h1, hv0] at hv
              injection hv with hv
              have hb := select_latest_loop_lower rest be bv p h
              omega
            · exact ih _ p h e h1 v hv

theorem select_latest_loop_id :
    ∀ (entries : List Json) (acc : Option (Json × Int)),
      (∀ e ∈ entries, pyInt (jGet e "index") = none) →
      Attention.select_latest_loop entries acc = acc := by
  intro entries
  induction entries with
  | nil => intro acc _; rfl
  | cons e rest ih =>
    intro acc hall
    simp only [Attention.select_latest_loop]
    split
    · exact ih acc (fun e' he' => hall e' (List.mem_cons_of_mem e he'))
    · rw [hall e (List.mem_cons_self e rest)]
      exact ih acc (fun e' he' => hall e' (List.mem_cons_of_mem e he'))

/-- C8: under the `latest` strategy the selector picks the entry with the
maximum parseable integer `index` (unparseable entries ignored), falls
back to the last dict-shaped entry when none parses, and the emitted
CRYSTAL_SELECT event's signature prefers the file-derived signature over
the index-recorded one. -/
theorem select_crystal_latest_spec :
    (∀ (crystals : List Json) (e₀ : Json), e₀ ∈ crystals →
      ∀ v₀ : Int, pyInt (jGet e₀ "index") = some v₀ →
      ∃ (e : Json) (v : Int), Attention.select_latest crystals = some e ∧
        e ∈ crystals ∧ pyInt (jGet e "index") = some v ∧
        ∀ e' ∈ crystals, ∀ v' : Int, pyInt (jGet e' "index") = some v' →
          v' ≤ v) ∧
    (∀ crystals : List Json,
      (∀ e ∈ crystals, pyInt (jGet e "index") = none) →
      Attention.select_latest crystals =
        (crystals.filter (fun e => e.isObj)).getLast?) ∧
    (∀ (fs : List (String × FileData)) (entry : Json) (s : String),
      Attention.load_crystal_signature fs (jGet entry "path")
        (Attention.entry_expected_signature entry) = some s → s ≠ "" →
      Attention.selected_signature fs entry = .str s) ∧
    (∀ (fs : List (String × FileData)) (entry : Json),
      Attention.load_crystal_signature fs (jGet entry "path")
        (Attention.entry_expected_signature entry) = none →
      Attention.selected_signature fs entry = jGetD entry "signature" .null) ∧
    (∀ (w : World) (relIndexPath indexRel : String) (l : List Json)
        (entry : Json),
      attention_normalize_rel_path relIndexPath (some w.workspace_dir) =
        some indexRel →
      jGetD (Attention.load_index_payload w.fs indexRel) "crystals"
        (.arr []) = .arr l →
      l ≠ [] →
      Attention.select_latest l = some entry →
      (Attention.select_crystal w relIndexPath "latest").1.state.history =
        w.state.history ++ [Json.obj [("type", .str "CRYSTAL_SELECT"),
          ("reason", .str "LATEST"), ("index", jGetD entry "index" .null),
          ("path", jGetD entry "path" .null),
          ("signature", Attention.selected_signature w.fs entry)]] ∧
      (Attention.select_crystal w relIndexPath "latest").2 =
        some (jGetD entry "path" .null)) := by
  refine ⟨?_, ?_, ?_, ?_, ?_⟩
  · intro crystals e₀ he₀ v₀ hp
    rcases hl : Attention.select_latest_loop crystals none with _ | ⟨e, v⟩
    · exact absurd ((select_latest_loop_none crystals none hl).2 e₀ he₀)
        (by simp [hp])
    · have horig := select_latest_loop_origin crystals none (e, v) hl
      refine ⟨e, v, ?_, ?_, ?_, ?_⟩
      · simp [Attention.select_latest, hl]
      · rcases horig with h1 | h1
        · exact Option.noConfusion h1
        · exact h1.1
      · rcases horig with h1 | h1
        · exact Option.noConfusion h1
        · exact h1.2
      · exact select_latest_loop_max crystals none (e, v) hl
  · intro crystals hall
    simp [Attention.select_latest, select_latest_loop_id crystals none hall]
  · intro fs entry s hload hne
    simp only [Attention.selected_signature, hload]
    rw [if_neg hne]
  · intro fs entry hload
    simp only [Attention.selected_signature, hload]
  · intro w relIndexPath indexRel l entry hn hcv hne hsel
    have htr : jTruthy (Json.arr l) = true := by
      cases l with
      | nil => exact absurd rfl hne
      | cons a t => rfl
    simp only [Attention.select_crystal, hn, hcv, htr, hsel]
    simp [set_subject_state]

/-- Witness for C8: the two-entry selector test scenario; index 2 wins and
the event carries the file-derived signature. -/
theorem select_crystal_latest_spec_witness :
    (∃ (e : Json) (v : Int),
      Attention.select_latest [selEntryA, selEntryB] = some e ∧
      e ∈ [selEntryA, selEntryB] ∧ pyInt (jGet e "index") = some v ∧
      ∀ e' ∈ [selEntryA, selEntryB], ∀ v' : Int,
        pyInt (jGet e' "index") = some v' → v' ≤ v) ∧
    ((Attention.select_crystal wSel "crystals/index.json" "latest").1.state.history =
      wSel.state.history ++ [Json.obj [("type", .str "CRYSTAL_SELECT"),
        ("reason", .str "LATEST"), ("index", jGetD selEntryB "index" .null),
        ("path", jGetD selEntryB "path" .null),
        ("signature", Attention.selected_signature wSel.fs selEntryB)]] ∧
     (Attention.select_crystal wSel "crystals/index.json" "latest").2 =
       some (jGetD selEntryB "path" .null)) :=
  ⟨select_crystal_latest_spec.1 [selEntryA, selEntryB] selEntryA
    (by decide) 0 (by decide),
   select_crystal_latest_spec.2.2.2.2 wSel "crystals/index.json"
    "crystals/index.json" [selEntryA, selEntryB] selEntryB (by decide)
    (by decide) (by decide) (by decide)⟩

/-! ### Crystal-index dedup helper lemmas -/

theorem load_index_payload_congr (fs₁ fs₂ : List (String × FileData))
    (p : String) (h : fsRead fs₁ p = fsRead fs₂ p) :
    Crystallizer.load_index_payload fs₁ p =
      Crystallizer.load_index_payload fs₂ p := by
  unfold Crystallizer.load_index_payload
  rw [h]

theorem load_index_payload_written (fs : List (String × FileData))
    (p : String) (n t : Int) (l : List Json) :
    Crystallizer.load_index_payload (fsWrite fs p (.jsonFile (.obj
      [("version", .str Crystallizer.INDEX_VERSION), ("next_index", .int n),
       ("last_event_index", .int t), ("crystals", .arr l)]))) p =
      { next_index := n, last_event_index := t,
        crystals := l.filter (fun e => e.isObj) } := by
  unfold Crystallizer.load_index_payload
  rw [fsRead_fsWrite_self]
  rfl

theorem filter_isObj_append_obj (l : List Json) (fl : List (String × Json))
    (h : ∀ e ∈ l, e.isObj = true) :
    (l ++ [Json.obj fl]).filter (fun e => e.isObj) = l ++ [Json.obj fl] := by
  rw [List.filter_append, List.filter_eq_self.mpr h]
  rfl

theorem known_signatures_concat_entry (l : List Json) (n : Int)
    (cp s kd : String) (fi ti ec : Int) (ca : String) (hs : s ≠ "") :
    Crystallizer.known_signatures (l ++ [Json.obj [("index", .int n),
      ("path", .str cp), ("signature", .str s), ("kind", .str kd),
      ("from_index", .int fi), ("to_index", .int ti),
      ("event_count", .int ec), ("created_at", .str ca)]]) =
      Crystallizer.known_signatures l ++ [Json.str s] := by
  simp [Crystallizer.known_signatures, List.filterMap_append, jGet, jTruthy, hs]

theorem signature_for_crystal_ne_empty (j : Json) :
    Crystallizer.signature_for_crystal j ≠ "" :=
  sha256HexOfString_ne_empty _

theorem contains_concat_self (l : List Json) (a : Json) :
    (l ++ [a]).contains a = true := by
  simp

theorem contains_true_of_mem (l : List Json) (a : Json) (h : a ∈ l) :
    l.contains a = true := by
  simp [h]

theorem nodup_append_singleton (l : List Json) (a : Json) (h1 : l.Nodup)
    (h2 : a ∉ l) : (l ++ [a]).Nodup := by
  simp [List.nodup_append, h1, h2]

/-- C5: re-crystallizing the identical new-event slice against the
filesystem left by a successful crystallization yields a DUPLICATE skip on
the second call — the recomputed signature is already among the indexed
signatures, no file is written, the cost is charged, and `next_index` does
not advance; and any crystallize call preserves pairwise-distinctness of
the indexed signatures. -/
theorem crystallize_duplicate_spec :
    (∀ (w : World) (relDir : String) (minN : Int) (ts1 ts2 : String)
        (w₁ : World) (p : String) (w₂ : World) (ts3 ts4 : String),
      Crystallizer.crystallize w relDir minN ts1 ts2 = (w₁, some p) →
      w₂.fs = w₁.fs →
      w₂.workspace_dir = w.workspace_dir →
      Crystallizer.last_crystal_write_index w₂.state.history =
        Crystallizer.last_crystal_write_index w.state.history →
      pySliceFrom w₂.state.history
          (Crystallizer.last_crystal_write_index w₂.state.history + 1) =
        pySliceFrom w.state.history
          (Crystallizer.last_crystal_write_index w.state.history + 1) →
      Crystallizer.CRYSTAL_COST ≤ w₂.state.budget →
      (Crystallizer.crystallize w₂ relDir minN ts3 ts4).2 = none ∧
      (Crystallizer.crystallize w₂ relDir minN ts3 ts4).1.fs = w₂.fs ∧
      (Crystallizer.crystallize w₂ relDir minN ts3 ts4).1.state.budget =
        w₂.state.budget - Crystallizer.CRYSTAL_COST ∧
      (∃ ev : Json,
        (Crystallizer.crystallize w₂ relDir minN ts3 ts4).1.state.history =
          w₂.state.history ++ [ev] ∧
        jGet ev "type" = some (.str "CRYSTAL_SKIP") ∧
        jGet ev "reason" = some (.str "DUPLICATE") ∧
        ∃ s : String, jGet ev "signature" = some (.str s) ∧
          Json.str s ∈ Crystallizer.known_signatures
            (Crystallizer.load_index_payload w₂.fs
              (Crystallizer.join_rel
                [Crystallizer.clean_rel_dir relDir (some w₂.workspace_dir),
                 "index.json"])).crystals) ∧
      (Crystallizer.load_index_payload
          (Crystallizer.crystallize w₂ relDir minN ts3 ts4).1.fs
          (Crystallizer.join_rel
            [Crystallizer.clean_rel_dir relDir (some w₂.workspace_dir),
             "index.json"])).next_index =
        (Crystallizer.load_index_payload w₂.fs
          (Crystallizer.join_rel
            [Crystallizer.clean_rel_dir relDir (some w₂.workspace_dir),
             "index.json"])).next_index) ∧
    (∀ (w : World) (relDir : String) (minN : Int) (ts1 ts2 : String),
      (Crystallizer.known_signatures
        (Crystallizer.load_index_payload w.fs
          (Crystallizer.join_rel
            [Crystallizer.clean_rel_dir relDir (some w.workspace_dir),
             "index.json"])).crystals).Nodup →
      (Crystallizer.known_signatures
        (Crystallizer.load_index_payload
          (Crystallizer.crystallize w relDir minN ts1 ts2).1.fs
          (Crystallizer.join_rel
            [Crystallizer.clean_rel_dir relDir (some w.workspace_dir),
             "index.json"])).crystals).Nodup) := by
  constructor
  · intro w relDir minN ts1 ts2 w₁ p w₂ ts3 ts4 h1 hfs hws hlast hslice hbud
    simp only [Crystallizer.crystallize] at h1
    split at h1
    · injection h1 with hw hr; exact Option.noConfusion hr
    · split at h1
      · injection h1 with hw hr; exact Option.noConfusion hr
      · rename_i hb0 hlen
        split at h1
        · injection h1 with hw hr; exact Option.noConfusion hr
        · split at h1
          · injection h1 with hw hr; exact Option.noConfusion hr
          · split at h1
            · injection h1 with hw hr; exact Option.noConfusion hr
            · rename_i hdeny1 hdeny2
              rw [write_artifact_deny_iff] at hdeny1 hdeny2
              have hm1 := eq_false_of_ne_true hdeny1
              have hm2 := eq_false_of_ne_true hdeny2
              injection h1 with hw hr
              subst hw
              simp only [set_subject_state, write_artifact_allowed _ _ _ hm2,
                write_artifact_allowed _ _ _ hm1] at hfs
              rw [hlast] at hslice
              simp only [Crystallizer.crystallize]
              rw [hws, hlast, hslice, hfs]
              rw [if_neg (not_lt.mpr hbud), if_neg hlen]
              simp only [load_index_payload_written]
              rw [filter_isObj_append_obj _ _
                (load_index_payload_crystals_isObj w.fs _)]
              rw [known_signatures_concat_entry _ _ _ _ _ _ _ _ _
                (signature_for_crystal_ne_empty _)]
              rw [if_pos (contains_concat_self _ _)]
              refine ⟨rfl, hfs, rfl, ⟨_, rfl, rfl, rfl, _, rfl, ?_⟩, ?_⟩
              · exact List.mem_append_right _ (List.mem_singleton_self _)
              · simp only [set_subject_state]
                rw [hfs]
                simp only [load_index_payload_written]
  · intro w relDir minN ts1 ts2 hnd
    simp only [Crystallizer.crystallize]
    split
    · simpa [set_subject_state] using hnd
    · split
      · simpa [set_subject_state] using hnd
      · split
        · simpa [set_subject_state] using hnd
        · rename_i hdup
          split
          · rename_i hd1
            rw [write_artifact_deny_iff] at hd1
            simp only [set_subject_state, write_artifact_rejected _ _ _ hd1]
            exact hnd
          · rename_i hd1
            rw [write_artifact_deny_iff] at hd1
            have hm1 := eq_false_of_ne_true hd1
            split
            · rename_i hd2
              rw [write_artifact_deny_iff] at hd2
              simp only [set_subject_state, write_artifact_rejected _ _ _ hd2,
                write_artifact_allowed _ _ _ hm1]
              rw [load_index_payload_congr _ w.fs _ (fsRead_fsWrite_ne _ _ _ _
                (Ne.symm (crystal_path_ne_index_path _ _)))]
              exact hnd
            · rename_i hd2
              rw [write_artifact_deny_iff] at hd2
              have hm2 := eq_false_of_ne_true hd2
              simp only [set_subject_state, write_artifact_allowed _ _ _ hm2,
                write_artifact_allowed _ _ _ hm1]
              simp only [load_index_payload_written]
              rw [filter_isObj_append_obj _ _
                (load_index_payload_crystals_isObj w.fs _)]
              rw [known_signatures_concat_entry _ _ _ _ _ _ _ _ _
                (signature_for_crystal_ne_empty _)]
              exact nodup_append_singleton _ _ hnd
                (fun hm => hdup (contains_true_of_mem _ _ hm))

set_option maxRecDepth 200000 in
/-- Witness for C5: after a first crystallization of `wOneEvent`, the same
slice re-presented through `wDup` is skipped as a DUPLICATE, and the index
signatures stay pairwise distinct. -/
theorem crystallize_duplicate_spec_witness :
    ((Crystallizer.crystallize wDup "crystals" 1 "T3" "T4").2 = none ∧
     (Crystallizer.crystallize wDup "crystals" 1 "T3" "T4").1.fs = wDup.fs ∧
     (Crystallizer.crystallize wDup "crystals" 1 "T3" "T4").1.state.budget =
       wDup.state.budget - Crystallizer.CRYSTAL_COST ∧
     (∃ ev : Json,
       (Crystallizer.crystallize wDup "crystals" 1 "T3" "T4").1.state.history =
         wDup.state.history ++ [ev] ∧
       jGet ev "type" = some (.str "CRYSTAL_SKIP") ∧
       jGet ev "reason" = some (.str "DUPLICATE") ∧
       ∃ s : String, jGet ev "signature" = some (.str s) ∧
         Json.str s ∈ Crystallizer.known_signatures
           (Crystallizer.load_index_payload wDup.fs
             (Crystallizer.join_rel
               [Crystallizer.clean_rel_dir "crystals"
                  (some wDup.workspace_dir), "index.json"])).crystals) ∧
     (Crystallizer.load_index_payload
         (Crystallizer.crystallize wDup "crystals" 1 "T3" "T4").1.fs
         (Crystallizer.join_rel
           [Crystallizer.clean_rel_dir "crystals" (some wDup.workspace_dir),
            "index.json"])).next_index =
       (Crystallizer.load_index_payload wDup.fs
         (Crystallizer.join_rel
           [Crystallizer.clean_rel_dir "crystals" (some wDup.workspace_dir),
            "index.json"])).next_index) ∧
    (Crystallizer.known_signatures
      (Crystallizer.load_index_payload
        (Crystallizer.crystallize wOneEvent "crystals" 1 "T1" "T2").1.fs
        (Crystallizer.join_rel
          [Crystallizer.clean_rel_dir "crystals"
             (some wOneEvent.workspace_dir), "index.json"])).crystals).Nodup :=
  ⟨crystallize_duplicate_spec.1 wOneEvent "crystals" 1 "T1" "T2"
    (Crystallizer.crystallize wOneEvent "crystals" 1 "T1" "T2").1
    "crystals/crystal_0000.json" wDup "T3" "T4" (by decide) rfl rfl rfl rfl
    (by decide),
   crystallize_duplicate_spec.2 wOneEvent "crystals" 1 "T1" "T2" (by decide)⟩

end SubjectModel
